import Mathlib

/-! SPI test program: a shallow embedding of `spi_test_prog.c`.

The program is an interactive harness: it reads single keys, byte values, decimal counts
and yes/no answers from a UART terminal, and drives a CoreSPI bus controller.  Both ends are
outside the file that is embedded here, so they are modelled as an explicit world:

* `World.keys` is the sequence of values that the terminal-input calls will return, in call
  order (one element per call of `get_single_char_from_user`, `get_bytes_from_user`,
  `get_dec_from_user` or `get_yes_no_from_user`);
* `World.miso` is, per call of `SPI_transfer_block`, the bytes the controller stores in the
  receive buffer (possibly fewer than requested, possibly none);
* `World.trace` is the ordered log of everything the program does to the outside: UART
  output, bus-controller calls, heap calls and accesses to heap buffers.

The four globals of the C file (`quit_spi_test`, `spi_command_byte`, `selected_dev`,
`selected_dev_id`) are fields of the world as well.
-/

namespace SpiTest

/-! ## Data model -/

/-- One element of a C byte buffer: `some b` is the byte `b`; `none` is an indeterminate
value (an element that was never written, or memory outside the buffer). -/
abbrev Cell := Option Nat

/-- The record `spi_dev`: the bus controller instance and the chip-select line. -/
structure spi_dev where
  spi : Nat
  spi_sel : Nat
deriving DecidableEq, Repr

/-- Everything the program does that is visible outside it, in program order. -/
inductive Event where
  | uart (text : String)
  | uart_temp (byte : Nat)
  | uart_hex (value : Cell)
  | SPI_init (spi : Nat)
  | SPI_configure_master_mode (spi : Nat)
  | SPI_set_slave_select (spi : Nat) (slave : Nat)
  | SPI_transfer_block (spi : Nat) (cmd_buffer : List Cell) (cmd_byte_size : Nat)
      (rd_byte_size : Nat)
  | SPI_clear_slave_select (spi : Nat) (slave : Nat)
  | malloc (size : Nat)
  | store (index : Nat)
  | load (index : Nat)
  | free
deriving DecidableEq, Repr

/-- The terminal, the bus, the log and the globals of `spi_test_prog.c`. -/
structure World where
  keys : List Nat
  miso : List (List Nat)
  trace : List Event
  quit_spi_test : Nat
  spi_command_byte : Nat
  selected_dev : spi_dev
  selected_dev_id : Nat

/-- How a call ends: it returns (`done`), it waits for a key that never comes (`blocked`),
or a `while` loop used up its iteration budget (`spinning`). The world reached is kept in
every case. -/
inductive Run (α : Type) where
  | done (a : α) (w : World)
  | blocked (w : World)
  | spinning (w : World)

/-- The world a run has reached. -/
def Run.world {α : Type} : Run α → World
  | .done _ w => w
  | .blocked w => w
  | .spinning w => w

/-- Whether the call returned. -/
def Run.returned {α : Type} : Run α → Bool
  | .done _ _ => true
  | _ => false

/-- Sequencing on runs: continue only after a return. -/
def Run.andThen {α β : Type} (r : Run α) (f : α → World → Run β) : Run β :=
  match r with
  | .done a w => f a w
  | .blocked w => .blocked w
  | .spinning w => .spinning w

/-- A C statement or call: a world transformer that may fail to return. -/
def M (α : Type) : Type := World → Run α

instance : Monad M where
  pure a := fun w => Run.done a w
  bind m f := fun w => Run.andThen (m w) f

/-- Append one event to the log. -/
def emit (e : Event) : M Unit :=
  fun w => Run.done () { w with trace := w.trace ++ [e] }

/-- Read the world (for the globals). -/
def getWorld : M World :=
  fun w => Run.done w w

/-- The loop `while (cond) body`, threading the loop-carried locals; `cond` may read the
globals. The budget bounds the number of iterations. -/
def while_loop {σ : Type} (cond : σ → World → Bool) (body : σ → M σ) : Nat → σ → M σ
  | 0, s => fun w => if cond s w then Run.spinning w else Run.done s w
  | fuel + 1, s => fun w =>
      if cond s w then Run.andThen (body s w) (while_loop cond body fuel) else Run.done s w

/-- The loop `for (i = lo; i < lo + count; i++) body`, threading the loop-carried data. -/
def for_range {σ : Type} (body : Nat → σ → M σ) : Nat → Nat → σ → M σ
  | _, 0, s => pure s
  | lo, count + 1, s => do
      let s1 ← body lo s
      for_range body (lo + 1) count s1

/-! ## Collaborators outside the file (terminal, bus controller, heap) -/

/-- Modelled from the spec: the terminal read primitive behind the four input helpers, which
are declared outside `spi_test_prog.c`. The call returns the next value the operator
supplies and blocks when there is none. -/
def next_key : M Nat :=
  fun w =>
    match w.keys with
    | [] => Run.blocked w
    | k :: rest => Run.done k { w with keys := rest }

/-- Modelled from the spec: `readChar() -> char`; the result is stored in a C `char`, kept
here as its byte value. -/
def get_single_char_from_user : M Nat := do
  let k ← next_key
  pure (k % 256)

/-- Modelled from the spec: `readByteValue(maxDigits) -> integer`. -/
def get_bytes_from_user (_num_bytes : Nat) : M Nat := next_key

/-- Modelled from the spec: `readDecimal(maxDigits) -> integer`. -/
def get_dec_from_user (_num_digits : Nat) : M Nat := next_key

/-- Modelled from the spec: `readYesNo() -> bool`; the callers compare the result with 1. -/
def get_yes_no_from_user : M Nat := next_key

/-- The call `UART_polled_tx_string(&g_uart, text)` on a string literal. -/
def UART_polled_tx_string (text : String) : M Unit := emit (Event.uart text)

/-- The pair `int_to_single_byte_string(value, hexStr); UART_polled_tx_string(hexStr)`. -/
def UART_hex (value : Cell) : M Unit := emit (Event.uart_hex value)

/-- Store the received bytes at the front of the receive buffer; elements beyond what
was received keep their value and the buffer keeps its length. -/
def store_block : List Nat → List Cell → List Cell
  | r :: rs, _ :: bs => some (r % 256) :: store_block rs bs
  | _, bs => bs

/-- Modelled from the spec: `transfer(txBuffer, txLen, rxBuffer, rxLen)` of the CoreSPI
driver. It logs the bytes clocked out and the two lengths, and returns the receive buffer
after the controller stored what this transfer yields (`World.miso`). -/
def SPI_transfer_block (spi : Nat) (cmd_buffer : List Cell) (cmd_byte_size : Nat)
    (rd_buffer : List Cell) (rd_byte_size : Nat) : M (List Cell) :=
  fun w =>
    Run.done (store_block ((w.miso.headD []).take rd_byte_size) rd_buffer)
      { w with
        miso := w.miso.tail
        trace := w.trace ++
          [Event.SPI_transfer_block spi (cmd_buffer.take cmd_byte_size) cmd_byte_size
            rd_byte_size] }

/-- The driver call `SPI_set_slave_select`. -/
def SPI_set_slave_select (spi : Nat) (slave : Nat) : M Unit :=
  emit (Event.SPI_set_slave_select spi slave)

/-- The driver call `SPI_clear_slave_select`. -/
def SPI_clear_slave_select (spi : Nat) (slave : Nat) : M Unit :=
  emit (Event.SPI_clear_slave_select spi slave)

/-- The call `malloc(size)`: a fresh buffer of `size` indeterminate bytes. -/
def malloc (size : Nat) : M (List Cell) := do
  emit (Event.malloc size)
  pure (List.replicate size none)

/-- The call `free(buffer)`. -/
def free : M Unit := emit Event.free

/-- The assignment `buffer[index] = value` on a heap buffer. -/
def heap_store (buffer : List Cell) (index : Nat) (value : Nat) : M (List Cell) := do
  emit (Event.store index)
  pure (buffer.set index (some value))

/-- The read `buffer[index]` on a heap buffer; outside the buffer the value is
indeterminate. -/
def heap_load (buffer : List Cell) (index : Nat) : M Cell := do
  emit (Event.load index)
  pure (buffer.getD index none)

/-! ## Constants declared outside the file -/

/-- The bus controller instance `riscv_spi`, shared by every device. -/
def riscv_spi : Nat := 0

/-- Modelled from the spec: the chip-select lines `SPI_SLAVE_0 .. SPI_SLAVE_5` of the
CoreSPI driver, numbered from 0. -/
def SPI_SLAVE_0 : Nat := 0
/-- Modelled from the spec: chip-select line 1. -/
def SPI_SLAVE_1 : Nat := 1
/-- Modelled from the spec: chip-select line 2. -/
def SPI_SLAVE_2 : Nat := 2
/-- Modelled from the spec: chip-select line 3. -/
def SPI_SLAVE_3 : Nat := 3
/-- Modelled from the spec: chip-select line 4. -/
def SPI_SLAVE_4 : Nat := 4
/-- Modelled from the spec: chip-select line 5. -/
def SPI_SLAVE_5 : Nat := 5

/-- Modelled from the spec: the device identifiers of `spi_test_prog.h`, the fixed 0-based
indices of the device catalog (`(0) FRAM` .. `(5) ACCELEROMETER`). -/
def FRAM : Nat := 0
/-- Modelled from the spec: device identifier 1. -/
def EXTERNAL_SPI_0 : Nat := 1
/-- Modelled from the spec: device identifier 2. -/
def EXTERNAL_SPI_1 : Nat := 2
/-- Modelled from the spec: device identifier 3. -/
def ADC : Nat := 3
/-- Modelled from the spec: device identifier 4. -/
def LCD_SCREEN : Nat := 4
/-- Modelled from the spec: device identifier 5. -/
def ACCELEROMETER : Nat := 5

/-! ## The device records (lines 13-46) -/

/-- Configuration for the SPI FLASH. -/
def fram_dev : spi_dev := { spi := riscv_spi, spi_sel := SPI_SLAVE_0 }
/-- Configuration for one of the external SPI ports. -/
def external_spi_0 : spi_dev := { spi := riscv_spi, spi_sel := SPI_SLAVE_1 }
/-- Configuration for one of the external SPI ports. -/
def external_spi_1 : spi_dev := { spi := riscv_spi, spi_sel := SPI_SLAVE_2 }
/-- Configuration for the ADC. -/
def adc_dev : spi_dev := { spi := riscv_spi, spi_sel := SPI_SLAVE_3 }
/-- Configuration for the LCD screen. -/
def lcd_screen_dev : spi_dev := { spi := riscv_spi, spi_sel := SPI_SLAVE_4 }
/-- Configuration for the accelerometer. -/
def accelerometer_dev : spi_dev := { spi := riscv_spi, spi_sel := SPI_SLAVE_5 }

/-! ## Initialisation and the two transactions (lines 54-146) -/

/-- The assignment `quit_spi_test = value`. -/
def set_quit_spi_test (value : Nat) : M Unit :=
  fun w => Run.done () { w with quit_spi_test := value }

/-- The assignment `spi_command_byte = value`. -/
def set_spi_command_byte (value : Nat) : M Unit :=
  fun w => Run.done () { w with spi_command_byte := value }

/-- The assignment `selected_dev = &device`. -/
def set_selected_dev (device : spi_dev) : M Unit :=
  fun w => Run.done () { w with selected_dev := device }

/-- The assignment `selected_dev_id = value`. -/
def set_selected_dev_id (value : Nat) : M Unit :=
  fun w => Run.done () { w with selected_dev_id := value }

/-- The function `spi_test_init`. -/
def spi_test_init : M Unit := do
  set_quit_spi_test 0
  set_spi_command_byte 0
  set_selected_dev external_spi_0
  set_selected_dev_id external_spi_0.spi_sel
  emit (Event.SPI_init riscv_spi)
  emit (Event.SPI_configure_master_mode riscv_spi)

/-- The function `spi_test_read(device, command, data, data_size)`: `command` points at one
byte; the result is the buffer `data` after the call. -/
def spi_test_read (device : spi_dev) (command : Nat) (data : List Cell) (data_size : Nat) :
    M (List Cell) := do
  SPI_set_slave_select device.spi device.spi_sel
  let data1 ← SPI_transfer_block device.spi [some command] 1 data data_size
  SPI_clear_slave_select device.spi device.spi_sel
  pure data1

/-- The function `spi_test_write(device, data, data_size, resp_data)`: `resp_data` points at
one byte; the result is that byte after the call. -/
def spi_test_write (device : spi_dev) (data : List Cell) (data_size : Nat) (resp_data : Cell) :
    M Cell := do
  SPI_set_slave_select device.spi device.spi_sel
  let resp ← SPI_transfer_block device.spi data data_size [resp_data] 1
  SPI_clear_slave_select device.spi device.spi_sel
  pure (resp.headD resp_data)

/-! ## The display helpers (lines 302-313, 486-497, 631-687, 774-777) -/

/-- The function `spi_test_display_write_command_instructions`. -/
def spi_test_display_write_command_instructions : M Unit := do
  UART_polled_tx_string "\tCOMMANDS:\n\r"
  UART_polled_tx_string "\t- 0\t change selected device\n\r"
  UART_polled_tx_string "\t- 1\t display selected device\n\r"
  UART_polled_tx_string "\t- 2\t write a single byte\n\r"
  UART_polled_tx_string "\t- 3\t write 4 bytes\n\r"
  UART_polled_tx_string "\t- 4\t write custom number of bytes\n\r"
  UART_polled_tx_string "\t- h\t display these commands\n\r"
  UART_polled_tx_string "\t- d\t display SPI device IDs\n\r"
  UART_polled_tx_string "\t- q\t exit \"Send Write Command\" tool\n\r"

/-- The function `spi_test_display_read_command_instructions`. -/
def spi_test_display_read_command_instructions : M Unit := do
  UART_polled_tx_string "\tCOMMANDS:\n\r"
  UART_polled_tx_string "\t- 0\t change selected device\n\r"
  UART_polled_tx_string "\t- 1\t display selected device\n\r"
  UART_polled_tx_string "\t- 2\t read a single byte\n\r"
  UART_polled_tx_string "\t- 3\t read 4 bytes\n\r"
  UART_polled_tx_string "\t- 4\t read custom number of bytes\n\r"
  UART_polled_tx_string "\t- h\t display these commands\n\r"
  UART_polled_tx_string "\t- d\t display SPI device IDs\n\r"
  UART_polled_tx_string "\t- q\t exit \"Send Write Command\" tool\n\r"

/-- The function `spi_test_display_commands`. -/
def spi_test_display_commands : M Unit := do
  UART_polled_tx_string "\tCOMMANDS:\n\r"
  UART_polled_tx_string "\t- 0\t change selected device\n\r"
  UART_polled_tx_string "\t- 1\t display selected device\n\r"
  UART_polled_tx_string "\t- 2\t send write command\n\r"
  UART_polled_tx_string "\t- 3\t send read command\n\r"
  UART_polled_tx_string "\t- h\t display these commands\n\r"
  UART_polled_tx_string "\t- d\t display SPI device IDs\n\r"
  UART_polled_tx_string "\t- q\t exit SPI Test Program\n\r"

/-- The function `spi_test_display_devices`. -/
def spi_test_display_devices : M Unit := do
  UART_polled_tx_string "\tSPI DEVICE IDs:\n\r"
  UART_polled_tx_string "\t-(0) FRAM\n\r"
  UART_polled_tx_string "\t-(1) EXTERNAL_SPI_0\n\r"
  UART_polled_tx_string "\t-(2) EXTERNAL_SPI_1\n\r"
  UART_polled_tx_string "\t-(3) ADC\n\r"
  UART_polled_tx_string "\t-(4) LCD_SCREEN\n\r"
  UART_polled_tx_string "\t-(5) ACCELEROMETER\n\r"

/-- The function `spi_test_display_selected_device`. -/
def spi_test_display_selected_device : M Unit := do
  UART_polled_tx_string "\tCURRENT DEVICE: "
  let g ← getWorld
  if g.selected_dev_id = FRAM then
    UART_polled_tx_string "FRAM\n\r"
  else if g.selected_dev_id = EXTERNAL_SPI_0 then
    UART_polled_tx_string "EXTERNAL_SPI_0\n\r"
  else if g.selected_dev_id = EXTERNAL_SPI_1 then
    UART_polled_tx_string "EXTERNAL_SPI_1\n\r"
  else if g.selected_dev_id = ADC then
    UART_polled_tx_string "ADC\n\r"
  else if g.selected_dev_id = LCD_SCREEN then
    UART_polled_tx_string "LCD_SCREEN\n\r"
  else if g.selected_dev_id = ACCELEROMETER then
    UART_polled_tx_string "ACCELEROMETER\n\r"
  else
    UART_polled_tx_string "<ERROR>\n\r"

/-- The function `spi_test_display_incorrect_command`. -/
def spi_test_display_incorrect_command : M Unit :=
  UART_polled_tx_string "ERROR! Invalid Command!\n\r"

/-! ## The device-selection flow (lines 692-769) -/

/-- One pass through the body of the `while (correct_id == 0)` loop of
`spi_test_change_selected_device`; the loop-carried locals are `(correct_id, isDeviceID)`. -/
def spi_test_change_selected_device_body (locals : Nat × Nat) : M (Nat × Nat) := do
  let mut correct_id := locals.1
  let mut isDeviceID := locals.2
  UART_polled_tx_string "Device ID:\n\r"
  let input ← get_single_char_from_user
  let device := (input + 256 - '0'.toNat) % 256
  if input = 'h'.toNat then
    spi_test_display_devices
  else if input = 'd'.toNat then
    spi_test_display_selected_device
  else if input = 'q'.toNat then
    UART_polled_tx_string "Device not changed.\n\r"
    correct_id := 1
  else
    isDeviceID := 1
  if isDeviceID ≠ 0 then
    correct_id := 1
    if device = FRAM then
      UART_polled_tx_string "WARNING: This may not be a good idea...\n\r"
      set_selected_dev fram_dev
      set_selected_dev_id fram_dev.spi_sel
      UART_polled_tx_string "FRAM selected\n\r"
    else if device = EXTERNAL_SPI_0 then
      set_selected_dev external_spi_0
      set_selected_dev_id external_spi_0.spi_sel
      UART_polled_tx_string "EXTERNAL_SPI_0 selected\n\r"
    else if device = EXTERNAL_SPI_1 then
      set_selected_dev external_spi_1
      set_selected_dev_id external_spi_1.spi_sel
      UART_polled_tx_string "EXTERNAL_SPI_1 selected\n\r"
    else if device = ADC then
      set_selected_dev adc_dev
      set_selected_dev_id adc_dev.spi_sel
      UART_polled_tx_string "ADC selected\n\r"
    else if device = LCD_SCREEN then
      set_selected_dev lcd_screen_dev
      set_selected_dev_id lcd_screen_dev.spi_sel
      UART_polled_tx_string "LCD_SCREEN selected\n\r"
    else if device = ACCELEROMETER then
      set_selected_dev accelerometer_dev
      set_selected_dev_id accelerometer_dev.spi_sel
      UART_polled_tx_string "ACCELEROMETER selected\n\r"
    else
      UART_polled_tx_string "ERROR: Device not found!\n\r\n\r"
      correct_id := 0
      isDeviceID := 0
  pure (correct_id, isDeviceID)

/-- The function `spi_test_change_selected_device`. -/
def spi_test_change_selected_device (fuel : Nat) : M Unit := do
  let correct_id := 0
  let isDeviceID := 0
  UART_polled_tx_string "\n\rYou have entered the \"Change Selected Device\" tool\n\r"
  UART_polled_tx_string "- Enter device ID to set the new device\n\r"
  UART_polled_tx_string "- Enter 'd' to display current selected device\n\r\n\r"
  spi_test_display_devices
  let _ ← while_loop (fun locals _ => decide (locals.1 = 0))
    spi_test_change_selected_device_body fuel (correct_id, isDeviceID)
  pure ()

/-! ## The write flows (lines 318-480) -/

/-- One pass through the `while (sendData == 0)` loop of `spi_test_write_single_byte`; the
loop-carried locals are `(sendData, writeData)`. -/
def spi_test_write_single_byte_body (locals : Nat × List Cell) : M (Nat × List Cell) := do
  let mut sendData := locals.1
  let mut writeData := locals.2
  UART_polled_tx_string "\tEnter Write Command:"
  let entered ← get_bytes_from_user 1
  set_spi_command_byte (entered % 256)
  UART_polled_tx_string "\tEnter Value to write:"
  let value ← get_bytes_from_user 1
  writeData := writeData.set 0 (some (value % 256))
  UART_polled_tx_string "\tSend write command \""
  let g ← getWorld
  UART_hex (some g.spi_command_byte)
  UART_polled_tx_string "\" and value \""
  UART_hex (writeData.getD 0 none)
  UART_polled_tx_string "\"?"
  let answer ← get_yes_no_from_user
  if answer = 1 then
    sendData := 1
  pure (sendData, writeData)

/-- The function `spi_test_write_single_byte`. -/
def spi_test_write_single_byte (fuel : Nat) : M Unit := do
  let writeData : List Cell := [some 0]
  let response : Cell := some 0
  let sendData := 0
  UART_polled_tx_string "You have entered the \"Send Single Byte\" tool\n\r\n\r"
  let locals ← while_loop (fun locals _ => decide (locals.1 = 0))
    spi_test_write_single_byte_body fuel (sendData, writeData)
  let g ← getWorld
  let response1 ← spi_test_write g.selected_dev locals.2 1 response
  UART_polled_tx_string "\n\r\tData has been sent!\n\r"
  UART_polled_tx_string "\tResponse was \""
  UART_hex response1
  UART_polled_tx_string "\"\n\r"

/-- The body of the first `for` loop of `spi_test_write_quad_byte`: prompt for and read
`writeData[i]`. -/
def spi_test_write_quad_byte_prompt (i : Nat) (writeData : List Cell) : M (List Cell) := do
  let temp := (i + '0'.toNat) % 256
  UART_polled_tx_string "\tEnter Value for byte "
  emit (Event.uart_temp temp)
  if i = 0 then
    UART_polled_tx_string " (MSB)"
  UART_polled_tx_string ":\n\r"
  let value ← get_bytes_from_user 1
  pure (writeData.set i (some (value % 256)))

/-- The body of the second `for` loop of `spi_test_write_quad_byte`: echo `writeData[i]`. -/
def spi_test_write_quad_byte_echo (writeData : List Cell) (i : Nat) (_ : Unit) : M Unit := do
  UART_polled_tx_string " \""
  UART_hex (writeData.getD i none)
  UART_polled_tx_string "\""

/-- One pass through the `while (sendData == 0)` loop of `spi_test_write_quad_byte`; the
loop-carried locals are `(sendData, writeData)`. -/
def spi_test_write_quad_byte_body (locals : Nat × List Cell) : M (Nat × List Cell) := do
  let mut sendData := locals.1
  let mut writeData := locals.2
  UART_polled_tx_string "\tEnter Write Command:"
  let entered ← get_bytes_from_user 1
  set_spi_command_byte (entered % 256)
  writeData ← for_range spi_test_write_quad_byte_prompt 0 4 writeData
  UART_polled_tx_string "\tSend write command \""
  let g ← getWorld
  UART_hex (some g.spi_command_byte)
  UART_polled_tx_string "\" and values"
  for_range (spi_test_write_quad_byte_echo writeData) 0 4 ()
  UART_polled_tx_string "?[Y/N] "
  let answer ← get_yes_no_from_user
  if answer = 1 then
    sendData := 1
  pure (sendData, writeData)

/-- The function `spi_test_write_quad_byte`. -/
def spi_test_write_quad_byte (fuel : Nat) : M Unit := do
  let response : Cell := some 0
  let sendData := 0
  let writeData : List Cell := List.replicate 4 none
  UART_polled_tx_string "You have entered the \"Send Quad Byte\" tool\n\r\n\r"
  let locals ← while_loop (fun locals _ => decide (locals.1 = 0))
    spi_test_write_quad_byte_body fuel (sendData, writeData)
  let g ← getWorld
  let response1 ← spi_test_write g.selected_dev locals.2 4 response
  UART_polled_tx_string "\n\r\tData has been sent!\n\r"
  UART_polled_tx_string "\tResponse was \""
  UART_hex response1
  UART_polled_tx_string "\"\n\r"

/-- The body of the first `for` loop of `spi_test_write_custom_byte`: prompt for and read
`writeData[i]` (a heap buffer). -/
def spi_test_write_custom_byte_prompt (i : Nat) (writeData : List Cell) : M (List Cell) := do
  let temp := (i + '0'.toNat) % 256
  UART_polled_tx_string "\tEnter Value for byte "
  emit (Event.uart_temp temp)
  if i = 0 then
    UART_polled_tx_string " (MSB)"
  UART_polled_tx_string ":\n\r"
  let value ← get_bytes_from_user 1
  heap_store writeData i (value % 256)

/-- The body of the second `for` loop of `spi_test_write_custom_byte`: echo `writeData[i]`. -/
def spi_test_write_custom_byte_echo (writeData : List Cell) (i : Nat) (_ : Unit) : M Unit := do
  let value ← heap_load writeData i
  UART_polled_tx_string " \""
  UART_hex value
  UART_polled_tx_string "\""

/-- One pass through the `while (sendData == 0)` loop of `spi_test_write_custom_byte`; the
loop-carried locals are `(sendData, writeData)`. -/
def spi_test_write_custom_byte_body (numBytes : Nat) (locals : Nat × List Cell) :
    M (Nat × List Cell) := do
  let mut sendData := locals.1
  let mut writeData := locals.2
  UART_polled_tx_string "\tEnter Write Command:"
  let entered ← get_bytes_from_user 1
  set_spi_command_byte (entered % 256)
  writeData ← for_range spi_test_write_custom_byte_prompt 0 numBytes writeData
  UART_polled_tx_string "\tSend write command \""
  let g ← getWorld
  UART_hex (some g.spi_command_byte)
  UART_polled_tx_string "\" and values"
  for_range (spi_test_write_custom_byte_echo writeData) 0 numBytes ()
  UART_polled_tx_string "?[Y/N] "
  let answer ← get_yes_no_from_user
  if answer = 1 then
    sendData := 1
  pure (sendData, writeData)

/-- The function `spi_test_write_custom_byte`; `numBytes` is a `uint8_t`. -/
def spi_test_write_custom_byte (fuel : Nat) : M Unit := do
  let response : Cell := some 0
  let sendData := 0
  UART_polled_tx_string "You have entered the \"Send Custom Byte\" tool\n\r\n\r"
  UART_polled_tx_string "How many bytes would you like to send?\n\r"
  let count ← get_dec_from_user 3
  let numBytes := count % 256
  let writeData ← malloc numBytes
  let locals ← while_loop (fun locals _ => decide (locals.1 = 0))
    (spi_test_write_custom_byte_body numBytes) fuel (sendData, writeData)
  let g ← getWorld
  let response1 ← spi_test_write g.selected_dev locals.2 numBytes response
  UART_polled_tx_string "\n\r\tData has been sent!\n\r"
  UART_polled_tx_string "\tResponse was \""
  UART_hex response1
  UART_polled_tx_string "\"\n\r"
  free

/-! ## The read flows (lines 502-626) -/

/-- One pass through the `while (sendData == 0)` loop of `spi_test_read_single_byte`; the
loop-carried local is `sendData`. -/
def spi_test_read_single_byte_body (locals : Nat) : M Nat := do
  let mut sendData := locals
  UART_polled_tx_string "\tEnter Read Command:"
  let entered ← get_bytes_from_user 1
  set_spi_command_byte (entered % 256)
  UART_polled_tx_string "\tSend read command \""
  let g ← getWorld
  UART_hex (some g.spi_command_byte)
  UART_polled_tx_string "\"?"
  let answer ← get_yes_no_from_user
  if answer = 1 then
    sendData := 1
  pure sendData

/-- The function `spi_test_read_single_byte`. -/
def spi_test_read_single_byte (fuel : Nat) : M Unit := do
  let readData : List Cell := [some 0]
  let sendData := 0
  UART_polled_tx_string "You have entered the \"Read Single Byte\" tool\n\r\n\r"
  let _ ← while_loop (fun locals _ => decide (locals = 0))
    spi_test_read_single_byte_body fuel sendData
  let g ← getWorld
  let readData1 ← spi_test_read g.selected_dev g.spi_command_byte readData 1
  UART_polled_tx_string "\n\r\tData has been read!\n\r"
  UART_polled_tx_string "\tRead Data is \""
  UART_hex (readData1.getD 0 none)
  UART_polled_tx_string "\"\n\r"

/-- One pass through the `while (sendData == 0)` loop of `spi_test_read_quad_byte`. The
command byte is formatted but not printed. -/
def spi_test_read_quad_byte_body (locals : Nat) : M Nat := do
  let mut sendData := locals
  UART_polled_tx_string "\tEnter Read Command:"
  let entered ← get_bytes_from_user 1
  set_spi_command_byte (entered % 256)
  UART_polled_tx_string "\tSend write command \""
  UART_polled_tx_string "\"?[Y/N] "
  let answer ← get_yes_no_from_user
  if answer = 1 then
    sendData := 1
  pure sendData

/-- The body of the reporting `for` loop of `spi_test_read_quad_byte`. -/
def spi_test_read_quad_byte_report (readData : List Cell) (i : Nat) (_ : Unit) : M Unit := do
  UART_polled_tx_string " \""
  UART_hex (readData.getD i none)
  UART_polled_tx_string "\""

/-- The function `spi_test_read_quad_byte`. -/
def spi_test_read_quad_byte (fuel : Nat) : M Unit := do
  let sendData := 0
  let readData : List Cell := List.replicate 4 none
  UART_polled_tx_string "You have entered the \"Read Quad Byte\" tool\n\r\n\r"
  let _ ← while_loop (fun locals _ => decide (locals = 0))
    spi_test_read_quad_byte_body fuel sendData
  let g ← getWorld
  let readData1 ← spi_test_read g.selected_dev g.spi_command_byte readData 4
  UART_polled_tx_string "\n\r\tData has been sent!\n\r"
  UART_polled_tx_string "\tRead Data is "
  for_range (spi_test_read_quad_byte_report readData1) 0 4 ()
  UART_polled_tx_string "\n\r"

/-- One pass through the `while (sendData == 0)` loop of `spi_test_read_custom_byte`. -/
def spi_test_read_custom_byte_body (locals : Nat) : M Nat := do
  let mut sendData := locals
  UART_polled_tx_string "\tEnter Write Command:"
  let entered ← get_bytes_from_user 1
  set_spi_command_byte (entered % 256)
  UART_polled_tx_string "\tSend write command \""
  let g ← getWorld
  UART_hex (some g.spi_command_byte)
  UART_polled_tx_string "\"?[Y/N] "
  let answer ← get_yes_no_from_user
  if answer = 1 then
    sendData := 1
  pure sendData

/-- The body of the reporting `for` loop of `spi_test_read_custom_byte`: `readData` is a
heap buffer. -/
def spi_test_read_custom_byte_report (readData : List Cell) (i : Nat) (_ : Unit) :
    M Unit := do
  UART_polled_tx_string " \""
  let value ← heap_load readData i
  UART_hex value
  UART_polled_tx_string "\""

/-- The function `spi_test_read_custom_byte`; `numBytes` is a `uint8_t`. -/
def spi_test_read_custom_byte (fuel : Nat) : M Unit := do
  let sendData := 0
  UART_polled_tx_string "You have entered the \"Send Custom Byte\" tool\n\r\n\r"
  UART_polled_tx_string "How many bytes would you like to send?\n\r"
  let count ← get_dec_from_user 3
  let numBytes := count % 256
  let readData ← malloc numBytes
  let _ ← while_loop (fun locals _ => decide (locals = 0))
    spi_test_read_custom_byte_body fuel sendData
  let g ← getWorld
  let readData1 ← spi_test_read g.selected_dev g.spi_command_byte readData numBytes
  UART_polled_tx_string "\n\r\tData has been sent!\n\r"
  UART_polled_tx_string "\tRead Data is "
  for_range (spi_test_read_custom_byte_report readData1) 0 4 ()
  UART_polled_tx_string "\n\r"
  free

/-! ## The menus (lines 152-297) -/

/-- One pass through the `while (quit_spi_test == 0)` loop of `spi_test_send_write_command`. -/
def spi_test_send_write_command_body (fuel : Nat) (_ : Unit) : M Unit := do
  UART_polled_tx_string "You have entered the \"Send Write Command\" tool\n\r\n\r"
  spi_test_display_write_command_instructions
  let command ← get_single_char_from_user
  if command = 'h'.toNat then
    spi_test_display_write_command_instructions
  else if command = 'd'.toNat then
    spi_test_display_devices
  else if command = 'q'.toNat then
    set_quit_spi_test 1
  else if command = '0'.toNat then
    spi_test_change_selected_device fuel
  else if command = '1'.toNat then
    spi_test_display_selected_device
  else if command = '2'.toNat then
    spi_test_write_single_byte fuel
  else if command = '3'.toNat then
    spi_test_write_quad_byte fuel
  else if command = '4'.toNat then
    spi_test_write_custom_byte fuel
  else
    spi_test_display_incorrect_command

/-- The function `spi_test_send_write_command`. -/
def spi_test_send_write_command (fuel : Nat) : M Unit := do
  while_loop (fun _ g => decide (g.quit_spi_test = 0))
    (spi_test_send_write_command_body fuel) fuel ()
  set_quit_spi_test 0
  UART_polled_tx_string "\n\rWELCOME TO THE SPI TEST!\n\r"

/-- One pass through the `while (quit_spi_test == 0)` loop of `spi_test_send_read_command`. -/
def spi_test_send_read_command_body (fuel : Nat) (_ : Unit) : M Unit := do
  UART_polled_tx_string "You have entered the \"Send Write Command\" tool\n\r\n\r"
  spi_test_display_write_command_instructions
  let command ← get_single_char_from_user
  if command = 'h'.toNat then
    spi_test_display_read_command_instructions
  else if command = 'd'.toNat then
    spi_test_display_devices
  else if command = 'q'.toNat then
    set_quit_spi_test 1
  else if command = '0'.toNat then
    spi_test_change_selected_device fuel
  else if command = '1'.toNat then
    spi_test_display_selected_device
  else if command = '2'.toNat then
    spi_test_read_single_byte fuel
  else if command = '3'.toNat then
    spi_test_read_quad_byte fuel
  else if command = '4'.toNat then
    spi_test_read_custom_byte fuel
  else
    spi_test_display_incorrect_command

/-- The function `spi_test_send_read_command`. -/
def spi_test_send_read_command (fuel : Nat) : M Unit := do
  while_loop (fun _ g => decide (g.quit_spi_test = 0))
    (spi_test_send_read_command_body fuel) fuel ()
  set_quit_spi_test 0
  UART_polled_tx_string "\n\rWELCOME TO THE SPI TEST!\n\r"

/-- One pass through the `while (quit_spi_test == 0)` loop of `spi_test_handler`. -/
def spi_test_handler_body (fuel : Nat) (_ : Unit) : M Unit := do
  UART_polled_tx_string "\n\r What would you like to do?\n\r"
  let command ← get_single_char_from_user
  if command = 'h'.toNat then
    spi_test_display_commands
  else if command = 'd'.toNat then
    spi_test_display_devices
  else if command = 'q'.toNat then
    set_quit_spi_test 1
  else if command = '0'.toNat then
    spi_test_change_selected_device fuel
  else if command = '1'.toNat then
    spi_test_display_selected_device
  else if command = '2'.toNat then
    spi_test_send_write_command fuel
  else if command = '3'.toNat then
    spi_test_send_read_command fuel
  else
    spi_test_display_incorrect_command

/-- The function `spi_test_handler`; `fuel` bounds the iterations of each `while` loop. -/
def spi_test_handler (fuel : Nat) : M Unit := do
  UART_polled_tx_string "\n\rWELCOME TO THE SPI TEST!\n\r"
  spi_test_display_commands
  spi_test_init
  while_loop (fun _ g => decide (g.quit_spi_test = 0)) (spi_test_handler_body fuel) fuel ()
  UART_polled_tx_string "\n\rLeaving SPI Test Program\n\r"

/-! ## Vocabulary of the statements -/

/-- The device catalog in the order `spi_test_display_devices` lists it: entry `i` is the
record that `spi_test_change_selected_device` binds to identifier `i`. -/
def device_catalog : List spi_dev :=
  [fram_dev, external_spi_0, external_spi_1, adc_dev, lcd_screen_dev, accelerometer_dev]

/-- Whether an event is a call of the bus controller inside a transaction. -/
def is_bus_op : Event → Bool
  | Event.SPI_set_slave_select _ _ => true
  | Event.SPI_transfer_block _ _ _ _ => true
  | Event.SPI_clear_slave_select _ _ => true
  | _ => false

/-- The bus operations of a log, in order. -/
def bus_ops (t : List Event) : List Event := t.filter is_bus_op

/-- The sizes passed to `malloc` in a log, in order. -/
def allocations (t : List Event) : List Nat :=
  t.filterMap fun e =>
    match e with
    | Event.malloc size => some size
    | _ => none

/-- What `spi_test_change_selected_device` prints when identifier `i` is accepted. -/
def selected_report (i : Nat) : List Event :=
  (if i = 0 then [Event.uart "WARNING: This may not be a good idea...\n\r"] else []) ++
    [Event.uart
      (["FRAM", "EXTERNAL_SPI_0", "EXTERNAL_SPI_1", "ADC", "LCD_SCREEN", "ACCELEROMETER"].getD i ""
        ++ " selected\n\r")]

/-- What `spi_test_change_selected_device` prints on entry, up to its first prompt. -/
def change_device_banner : List Event :=
  [Event.uart "\n\rYou have entered the \"Change Selected Device\" tool\n\r",
   Event.uart "- Enter device ID to set the new device\n\r",
   Event.uart "- Enter 'd' to display current selected device\n\r\n\r",
   Event.uart "\tSPI DEVICE IDs:\n\r",
   Event.uart "\t-(0) FRAM\n\r",
   Event.uart "\t-(1) EXTERNAL_SPI_0\n\r",
   Event.uart "\t-(2) EXTERNAL_SPI_1\n\r",
   Event.uart "\t-(3) ADC\n\r",
   Event.uart "\t-(4) LCD_SCREEN\n\r",
   Event.uart "\t-(5) ACCELEROMETER\n\r",
   Event.uart "Device ID:\n\r"]

/-- What the operator enters in one round of the write-four-bytes flow: the command byte,
the four data bytes and the answer to the confirmation prompt. -/
structure QuadEntry where
  command : Nat
  data0 : Nat
  data1 : Nat
  data2 : Nat
  data3 : Nat
  answer : Nat

/-- The values the terminal returns during one round, in call order. -/
def QuadEntry.keys (r : QuadEntry) : List Nat :=
  [r.command, r.data0, r.data1, r.data2, r.data3, r.answer]

/-- The four data bytes of a round as stored in `writeData`. -/
def QuadEntry.payload (r : QuadEntry) : List Cell :=
  [some (r.data0 % 256), some (r.data1 % 256), some (r.data2 % 256), some (r.data3 % 256)]

/-- What one round of the write-four-bytes flow prints: the prompt for the command byte, the
four prompts for the data bytes, the echo of the request and the confirmation prompt. -/
def quad_round_output (r : QuadEntry) : List Event :=
  [Event.uart "\tEnter Write Command:",
   Event.uart "\tEnter Value for byte ", Event.uart_temp 48, Event.uart " (MSB)",
   Event.uart ":\n\r",
   Event.uart "\tEnter Value for byte ", Event.uart_temp 49, Event.uart ":\n\r",
   Event.uart "\tEnter Value for byte ", Event.uart_temp 50, Event.uart ":\n\r",
   Event.uart "\tEnter Value for byte ", Event.uart_temp 51, Event.uart ":\n\r",
   Event.uart "\tSend write command \"", Event.uart_hex (some (r.command % 256)),
   Event.uart "\" and values",
   Event.uart " \"", Event.uart_hex (some (r.data0 % 256)), Event.uart "\"",
   Event.uart " \"", Event.uart_hex (some (r.data1 % 256)), Event.uart "\"",
   Event.uart " \"", Event.uart_hex (some (r.data2 % 256)), Event.uart "\"",
   Event.uart " \"", Event.uart_hex (some (r.data3 % 256)), Event.uart "\"",
   Event.uart "?[Y/N] "]

/-- What `spi_test_write_quad_byte` prints after its transaction, given the response. -/
def quad_report (response : Cell) : List Event :=
  [Event.uart "\n\r\tData has been sent!\n\r",
   Event.uart "\tResponse was \"",
   Event.uart_hex response,
   Event.uart "\"\n\r"]

/-- What the first `for` loop of `spi_test_write_custom_byte` logs when it reads `vals`
into `writeData[lo ..]`. -/
def custom_prompt_output : Nat → List Nat → List Event
  | _, [] => []
  | lo, _ :: vs =>
      [Event.uart "\tEnter Value for byte ", Event.uart_temp ((lo + '0'.toNat) % 256)] ++
        (if lo = 0 then [Event.uart " (MSB)"] else []) ++
        [Event.uart ":\n\r", Event.store lo] ++ custom_prompt_output (lo + 1) vs

/-- What the second `for` loop of `spi_test_write_custom_byte` logs when it echoes
`count` bytes of `writeData` from index `lo`. -/
def custom_echo_output (writeData : List Cell) : Nat → Nat → List Event
  | _, 0 => []
  | lo, count + 1 =>
      [Event.load lo, Event.uart " \"", Event.uart_hex (writeData.getD lo none),
        Event.uart "\""] ++ custom_echo_output writeData (lo + 1) count

/-- Whether a sequence of bus operations consists of whole transactions only: assert a
line, one transfer, deassert the same line, on one controller. -/
def paired : List Event → Bool
  | [] => true
  | Event.SPI_set_slave_select s l :: Event.SPI_transfer_block s1 _ _ _ ::
      Event.SPI_clear_slave_select s2 l2 :: rest =>
      s1 == s && s2 == s && l2 == l && paired rest
  | _ => false

/-- The effect of one event on the list of asserted chip-select lines. -/
def asserted_step (held : List Nat) : Event → List Nat
  | Event.SPI_set_slave_select _ l => held ++ [l]
  | Event.SPI_clear_slave_select _ l => held.erase l
  | _ => held

/-- The chip-select lines that are asserted after a log, none being asserted before it. -/
def asserted (t : List Event) : List Nat := t.foldl asserted_step []

/-- Whatever a call appends to the log, and however it ends, its bus operations are whole
transactions. -/
structure Tidy {α : Type} (m : M α) : Prop where
  out : ∀ w, ∃ ext, (m w).world.trace = w.trace ++ ext ∧ paired (bus_ops ext) = true

/-- A call keeps the chip-select discipline: from every world, and however the call ends
(return, wait for a key, loop budget used up), what it appends to the log is made of
whole transactions; at no point of it more than one line is asserted, and none is asserted
at its end. -/
def keeps_chip_select_paired {α : Type} (m : M α) : Prop :=
  ∀ w, ∃ ext, (m w).world.trace = w.trace ++ ext ∧ paired (bus_ops ext) = true ∧
    asserted ext = [] ∧ ∀ n, (asserted (ext.take n)).length ≤ 1

/-- What a sub-menu prints at the head of each pass: the banner and the command list of
the write menu (the read menu prints the same text). -/
def sub_menu_head : List Event :=
  [Event.uart "You have entered the \"Send Write Command\" tool\n\r\n\r",
   Event.uart "\tCOMMANDS:\n\r",
   Event.uart "\t- 0\t change selected device\n\r",
   Event.uart "\t- 1\t display selected device\n\r",
   Event.uart "\t- 2\t write a single byte\n\r",
   Event.uart "\t- 3\t write 4 bytes\n\r",
   Event.uart "\t- 4\t write custom number of bytes\n\r",
   Event.uart "\t- h\t display these commands\n\r",
   Event.uart "\t- d\t display SPI device IDs\n\r",
   Event.uart "\t- q\t exit \"Send Write Command\" tool\n\r"]

/-- A call that, started with the quit flag clear, leaves it clear however it ends, and
only consumes keys from the front of the pending ones. -/
structure Quiet {α : Type} (m : M α) : Prop where
  out : ∀ w, w.quit_spi_test = 0 →
    (m w).world.quit_spi_test = 0 ∧ (m w).world.keys <:+ w.keys

/-- A call that, started with the quit flag clear, either leaves it clear or returns with
the flag set to 1; it only consumes keys from the front of the pending ones. -/
structure SubStep {α : Type} (m : M α) : Prop where
  out : ∀ w, w.quit_spi_test = 0 →
    (m w).world.keys <:+ w.keys ∧
      ((m w).world.quit_spi_test = 0 ∨
        ((m w).returned = true ∧ (m w).world.quit_spi_test = 1))

/-- The indices of the reads of a heap buffer in a log, in order. -/
def loads (t : List Event) : List Nat :=
  t.filterMap fun e =>
    match e with
    | Event.load index => some index
    | _ => none

/-- The byte values printed in hexadecimal in a log, in order. -/
def printed_bytes (t : List Event) : List Cell :=
  t.filterMap fun e =>
    match e with
    | Event.uart_hex value => some value
    | _ => none

/-- The world right after `spi_test_init`, with an empty log: `EXTERNAL_SPI_0` selected. -/
def session_start (keys : List Nat) (miso : List (List Nat)) : World :=
  { keys := keys
    miso := miso
    trace := []
    quit_spi_test := 0
    spi_command_byte := 0
    selected_dev := external_spi_0
    selected_dev_id := external_spi_0.spi_sel }

/-! ## Evaluation lemmas -/

@[simp] theorem bind_run {α β : Type} (m : M α) (f : α → M β) (w : World) :
    (m >>= f) w = Run.andThen (m w) f := rfl

@[simp] theorem pure_run {α : Type} (a : α) (w : World) :
    (pure a : M α) w = Run.done a w := rfl

@[simp] theorem andThen_done {α β : Type} (a : α) (w : World) (f : α → World → Run β) :
    Run.andThen (Run.done a w) f = f a w := rfl

@[simp] theorem andThen_blocked {α β : Type} (w : World) (f : α → World → Run β) :
    Run.andThen (Run.blocked w : Run α) f = Run.blocked w := rfl

@[simp] theorem andThen_spinning {α β : Type} (w : World) (f : α → World → Run β) :
    Run.andThen (Run.spinning w : Run α) f = Run.spinning w := rfl

@[simp] theorem ite_run {α : Type} (c : Prop) [Decidable c] (m1 m2 : M α) (w : World) :
    (if c then m1 else m2 : M α) w = if c then m1 w else m2 w := by
  split <;> rfl

@[simp] theorem emit_run (e : Event) (w : World) :
    emit e w = Run.done () { w with trace := w.trace ++ [e] } := rfl

@[simp] theorem getWorld_run (w : World) : getWorld w = Run.done w w := rfl

@[simp] theorem set_quit_spi_test_run (v : Nat) (w : World) :
    set_quit_spi_test v w = Run.done () { w with quit_spi_test := v } := rfl

@[simp] theorem set_spi_command_byte_run (v : Nat) (w : World) :
    set_spi_command_byte v w = Run.done () { w with spi_command_byte := v } := rfl

@[simp] theorem set_selected_dev_run (d : spi_dev) (w : World) :
    set_selected_dev d w = Run.done () { w with selected_dev := d } := rfl

@[simp] theorem set_selected_dev_id_run (v : Nat) (w : World) :
    set_selected_dev_id v w = Run.done () { w with selected_dev_id := v } := rfl

@[simp] theorem next_key_mk_cons (k : Nat) (rest : List Nat) (miso : List (List Nat))
    (t : List Event) (q c : Nat) (d : spi_dev) (j : Nat) :
    next_key { keys := k :: rest, miso := miso, trace := t, quit_spi_test := q,
               spi_command_byte := c, selected_dev := d, selected_dev_id := j } =
      Run.done k { keys := rest, miso := miso, trace := t, quit_spi_test := q,
                   spi_command_byte := c, selected_dev := d, selected_dev_id := j } := rfl

@[simp] theorem next_key_mk_nil (miso : List (List Nat))
    (t : List Event) (q c : Nat) (d : spi_dev) (j : Nat) :
    next_key { keys := [], miso := miso, trace := t, quit_spi_test := q,
               spi_command_byte := c, selected_dev := d, selected_dev_id := j } =
      Run.blocked { keys := [], miso := miso, trace := t, quit_spi_test := q,
                    spi_command_byte := c, selected_dev := d, selected_dev_id := j } := rfl

theorem while_loop_succ {σ : Type} (cond : σ → World → Bool) (body : σ → M σ) (fuel : Nat)
    (s : σ) (w : World) :
    while_loop cond body (fuel + 1) s w =
      if cond s w then Run.andThen (body s w) (while_loop cond body fuel) else Run.done s w :=
  rfl

theorem while_loop_exit {σ : Type} (cond : σ → World → Bool) (body : σ → M σ) (fuel : Nat)
    (s : σ) (w : World) (h : cond s w = false) :
    while_loop cond body fuel s w = Run.done s w := by
  cases fuel <;> simp [while_loop, h]

/-! ## The two transactions -/

/-- C1: for every device, command byte and length, `spi_test_read` returns and performs
exactly three bus operations, in this order: assert the chip-select line of the device, one
block transfer that transmits the single command byte (transmit length 1) and receives
`data_size` bytes into the data buffer, deassert the same line. -/
theorem spi_test_read_bus_operations (device : spi_dev) (command : Nat) (data : List Cell)
    (data_size : Nat) (w : World) :
    spi_test_read device command data data_size w =
      Run.done (store_block ((w.miso.headD []).take data_size) data)
        { w with
          miso := w.miso.tail
          trace := w.trace ++
            [Event.SPI_set_slave_select device.spi device.spi_sel,
             Event.SPI_transfer_block device.spi [some command] 1 data_size,
             Event.SPI_clear_slave_select device.spi device.spi_sel] } := by
  simp [spi_test_read, SPI_set_slave_select, SPI_transfer_block, SPI_clear_slave_select]

/-- C2: for every device and every payload of length `data_size`, `spi_test_write` returns
and performs exactly three bus operations, in this order: assert the chip-select line of the
device, one block transfer that transmits the whole payload (transmit length `data_size`)
and receives 1 byte, deassert the same line; the response handed back is the byte received
(the response byte keeps its old value when the transfer yields nothing). -/
theorem spi_test_write_bus_operations (device : spi_dev) (data : List Cell) (data_size : Nat)
    (resp_data : Cell) (w : World) (hlen : data.length = data_size) :
    spi_test_write device data data_size resp_data w =
      Run.done
        (match w.miso with
          | (r :: _) :: _ => some (r % 256)
          | _ => resp_data)
        { w with
          miso := w.miso.tail
          trace := w.trace ++
            [Event.SPI_set_slave_select device.spi device.spi_sel,
             Event.SPI_transfer_block device.spi data data_size 1,
             Event.SPI_clear_slave_select device.spi device.spi_sel] } := by
  subst hlen
  simp only [spi_test_write, SPI_set_slave_select, SPI_transfer_block, SPI_clear_slave_select,
    bind_run, emit_run, andThen_done, pure_run, List.take_length, List.append_assoc,
    List.singleton_append, List.cons_append, List.nil_append]
  congr 1
  rcases w.miso with _ | ⟨_ | ⟨r, rs⟩, ms⟩ <;> simp [store_block]

/-- The witness for C2: a 5-byte payload on the ADC line, the bus answering `0xAB`. -/
theorem spi_test_write_bus_operations_witness :
    spi_test_write adc_dev [some 0x20, some 1, some 2, some 3, some 4] 5 (some 0)
        (session_start [] [[0xAB]]) =
      Run.done (some 0xAB)
        { (session_start [] [[0xAB]]) with
          miso := []
          trace :=
            [Event.SPI_set_slave_select 0 3,
             Event.SPI_transfer_block 0 [some 0x20, some 1, some 2, some 3, some 4] 5 1,
             Event.SPI_clear_slave_select 0 3] } :=
  spi_test_write_bus_operations adc_dev [some 0x20, some 1, some 2, some 3, some 4] 5 (some 0)
    (session_start [] [[0xAB]]) rfl

/-! ## Device selection -/

theorem spi_test_display_devices_run (w : World) :
    spi_test_display_devices w = Run.done ()
      { w with trace := w.trace ++
          [Event.uart "\tSPI DEVICE IDs:\n\r",
           Event.uart "\t-(0) FRAM\n\r",
           Event.uart "\t-(1) EXTERNAL_SPI_0\n\r",
           Event.uart "\t-(2) EXTERNAL_SPI_1\n\r",
           Event.uart "\t-(3) ADC\n\r",
           Event.uart "\t-(4) LCD_SCREEN\n\r",
           Event.uart "\t-(5) ACCELEROMETER\n\r"] } := by
  simp [spi_test_display_devices, UART_polled_tx_string]

theorem change_body_known (i : Nat) (hi : i < 6) (rest : List Nat) (w : World)
    (hkeys : w.keys = ('0'.toNat + i) :: rest) :
    spi_test_change_selected_device_body (0, 0) w =
      Run.done (1, 1)
        { w with
          keys := rest
          trace := w.trace ++ Event.uart "Device ID:\n\r" :: selected_report i
          selected_dev := device_catalog.getD i fram_dev
          selected_dev_id := (device_catalog.getD i fram_dev).spi_sel } := by
  interval_cases i <;>
  simp [spi_test_change_selected_device_body, UART_polled_tx_string, get_single_char_from_user,
    next_key, hkeys, FRAM, EXTERNAL_SPI_0, EXTERNAL_SPI_1, ADC, LCD_SCREEN, ACCELEROMETER,
    device_catalog, selected_report]

theorem change_body_unknown (k : Nat) (rest : List Nat) (w : World) (hkeys : w.keys = k :: rest)
    (hdev : ¬ ('0'.toNat ≤ k % 256 ∧ k % 256 ≤ '5'.toNat))
    (hh : k % 256 ≠ 'h'.toNat) (hd : k % 256 ≠ 'd'.toNat) (hq : k % 256 ≠ 'q'.toNat) :
    spi_test_change_selected_device_body (0, 0) w =
      Run.done (0, 0)
        { w with
          keys := rest
          trace := w.trace ++
            [Event.uart "Device ID:\n\r", Event.uart "ERROR: Device not found!\n\r\n\r"] } := by
  simp at hdev hh hd hq
  have h0 : (k + 208) % 256 ≠ 0 := by omega
  have h1 : (k + 208) % 256 ≠ 1 := by omega
  have h2 : (k + 208) % 256 ≠ 2 := by omega
  have h3 : (k + 208) % 256 ≠ 3 := by omega
  have h4 : (k + 208) % 256 ≠ 4 := by omega
  have h5 : (k + 208) % 256 ≠ 5 := by omega
  simp [spi_test_change_selected_device_body, UART_polled_tx_string, get_single_char_from_user,
    next_key, hkeys, hh, hd, hq, h0, h1, h2, h3, h4, h5,
    FRAM, EXTERNAL_SPI_0, EXTERNAL_SPI_1, ADC, LCD_SCREEN, ACCELEROMETER]

theorem change_selected_device_known (i : Nat) (hi : i < 6) (fuel : Nat) (rest : List Nat)
    (w : World) (hkeys : w.keys = ('0'.toNat + i) :: rest) :
    spi_test_change_selected_device (fuel + 1) w =
      Run.done ()
        { w with
          keys := rest
          trace := w.trace ++ (change_device_banner ++ selected_report i)
          selected_dev := device_catalog.getD i fram_dev
          selected_dev_id := (device_catalog.getD i fram_dev).spi_sel } := by
  simp only [spi_test_change_selected_device, bind_run, UART_polled_tx_string, emit_run,
    andThen_done, spi_test_display_devices_run, while_loop_succ, decide_True, if_true]
  rw [change_body_known i hi rest _ (by simpa using hkeys)]
  simp [while_loop_exit, change_device_banner]

/-- C3: for every valid device identifier `i` (the characters '0' to '5') and every prior
session state, entering `i` in the device-selection flow ends the flow with the selected
device equal to the catalog entry bound to `i` and the selected identifier equal to the
chip-select line of that entry; the other globals, the pending keys and the bus are left as
they were. -/
theorem change_selected_device_selects (i : Nat) (hi : i < 6) (fuel : Nat) (rest : List Nat)
    (w : World) (hkeys : w.keys = ('0'.toNat + i) :: rest) :
    ∃ d out, device_catalog[i]? = some d ∧
      spi_test_change_selected_device (fuel + 1) w =
        Run.done ()
          { w with
            keys := rest
            trace := w.trace ++ out
            selected_dev := d
            selected_dev_id := d.spi_sel } ∧
      bus_ops out = [] := by
  refine ⟨device_catalog.getD i fram_dev, change_device_banner ++ selected_report i, ?_,
    change_selected_device_known i hi fuel rest w hkeys, ?_⟩
  · interval_cases i <;> rfl
  · interval_cases i <;> rfl

/-- The witness for C3: identifier '3' selects the ADC record. -/
theorem change_selected_device_selects_witness :
    ∃ d out, device_catalog[3]? = some d ∧
      spi_test_change_selected_device 1 (session_start ['3'.toNat] []) =
        Run.done ()
          { (session_start ['3'.toNat] []) with
            keys := []
            trace := (session_start ['3'.toNat] []).trace ++ out
            selected_dev := d
            selected_dev_id := d.spi_sel } ∧
      bus_ops out = [] :=
  change_selected_device_selects 3 (by decide) 0 [] (session_start ['3'.toNat] []) rfl

/-- C4: for every key that is not a valid device identifier and not one of the keys h, d, q
of the flow, one pass of the device-selection loop reports "ERROR: Device not found!",
changes neither the selected device nor its identifier nor the quit flag nor any other
global, and leaves the loop running: the flow prompts again. -/
theorem change_selected_device_unknown (k : Nat) (fuel : Nat) (rest : List Nat) (w : World)
    (hkeys : w.keys = k :: rest)
    (hdev : ¬ ('0'.toNat ≤ k % 256 ∧ k % 256 ≤ '5'.toNat))
    (hh : k % 256 ≠ 'h'.toNat) (hd : k % 256 ≠ 'd'.toNat) (hq : k % 256 ≠ 'q'.toNat) :
    spi_test_change_selected_device_body (0, 0) w =
        Run.done (0, 0)
          { w with
            keys := rest
            trace := w.trace ++
              [Event.uart "Device ID:\n\r", Event.uart "ERROR: Device not found!\n\r\n\r"] } ∧
      while_loop (fun locals _ => decide (locals.1 = 0)) spi_test_change_selected_device_body
          (fuel + 1) (0, 0) w =
        while_loop (fun locals _ => decide (locals.1 = 0)) spi_test_change_selected_device_body
          fuel (0, 0)
          { w with
            keys := rest
            trace := w.trace ++
              [Event.uart "Device ID:\n\r", Event.uart "ERROR: Device not found!\n\r\n\r"] } := by
  have hbody := change_body_unknown k rest w hkeys hdev hh hd hq
  refine ⟨hbody, ?_⟩
  rw [while_loop_succ, hbody]
  simp

/-- The witness for C4: the key 'x'. -/
theorem change_selected_device_unknown_witness :
    spi_test_change_selected_device_body (0, 0) (session_start ['x'.toNat, '3'.toNat] []) =
        Run.done (0, 0)
          { (session_start ['x'.toNat, '3'.toNat] []) with
            keys := ['3'.toNat]
            trace := (session_start ['x'.toNat, '3'.toNat] []).trace ++
              [Event.uart "Device ID:\n\r", Event.uart "ERROR: Device not found!\n\r\n\r"] } ∧
      while_loop (fun locals _ => decide (locals.1 = 0)) spi_test_change_selected_device_body
          (1 + 1) (0, 0) (session_start ['x'.toNat, '3'.toNat] []) =
        while_loop (fun locals _ => decide (locals.1 = 0)) spi_test_change_selected_device_body
          1 (0, 0)
          { (session_start ['x'.toNat, '3'.toNat] []) with
            keys := ['3'.toNat]
            trace := (session_start ['x'.toNat, '3'.toNat] []).trace ++
              [Event.uart "Device ID:\n\r", Event.uart "ERROR: Device not found!\n\r\n\r"] } :=
  change_selected_device_unknown 'x'.toNat 1 ['3'.toNat] (session_start ['x'.toNat, '3'.toNat] [])
    rfl (by decide) (by decide) (by decide) (by decide)

/-! ## Projections of the log -/

theorem bus_ops_append (a b : List Event) : bus_ops (a ++ b) = bus_ops a ++ bus_ops b := by
  simp [bus_ops]

theorem bus_ops_cons (e : Event) (a : List Event) :
    bus_ops (e :: a) = if is_bus_op e then e :: bus_ops a else bus_ops a := by
  simp only [bus_ops, List.filter_cons]

theorem bus_ops_nil : bus_ops [] = [] := rfl

theorem bus_ops_selected_report (i : Nat) : bus_ops (selected_report i) = [] := by
  unfold selected_report
  split <;> rfl

theorem bus_ops_change_device_banner : bus_ops change_device_banner = [] := rfl

theorem bus_ops_quad_round_output (r : QuadEntry) : bus_ops (quad_round_output r) = [] := rfl

theorem bus_ops_quad_rounds (rounds : List QuadEntry) :
    bus_ops (rounds.flatMap quad_round_output) = [] := by
  induction rounds with
  | nil => rfl
  | cons r rs ih => rw [List.flatMap_cons, bus_ops_append, bus_ops_quad_round_output, ih]; rfl

theorem allocations_append (a b : List Event) :
    allocations (a ++ b) = allocations a ++ allocations b := by
  simp [allocations]

theorem allocations_cons (e : Event) (a : List Event) :
    allocations (e :: a) =
      match e with
      | Event.malloc size => size :: allocations a
      | _ => allocations a := by
  cases e <;> simp [allocations]

theorem allocations_nil : allocations [] = [] := rfl

theorem bus_ops_custom_prompt_output (vals : List Nat) :
    ∀ lo, bus_ops (custom_prompt_output lo vals) = [] := by
  induction vals with
  | nil => intro lo; rfl
  | cons v vs ih =>
      intro lo
      unfold custom_prompt_output
      split <;> simp [bus_ops_append, bus_ops_cons, bus_ops_nil, is_bus_op, ih]

theorem allocations_custom_prompt_output (vals : List Nat) :
    ∀ lo, allocations (custom_prompt_output lo vals) = [] := by
  induction vals with
  | nil => intro lo; rfl
  | cons v vs ih =>
      intro lo
      unfold custom_prompt_output
      split <;> simp [allocations_append, allocations_cons, allocations_nil, ih]

theorem bus_ops_custom_echo_output (writeData : List Cell) (count : Nat) :
    ∀ lo, bus_ops (custom_echo_output writeData lo count) = [] := by
  induction count with
  | zero => intro lo; rfl
  | succ k ih =>
      intro lo
      unfold custom_echo_output
      simp [bus_ops_append, bus_ops_cons, bus_ops_nil, is_bus_op, ih]

theorem allocations_custom_echo_output (writeData : List Cell) (count : Nat) :
    ∀ lo, allocations (custom_echo_output writeData lo count) = [] := by
  induction count with
  | zero => intro lo; rfl
  | succ k ih =>
      intro lo
      unfold custom_echo_output
      simp [allocations_append, allocations_cons, allocations_nil, ih]

/-! ## The custom-length flows -/

theorem custom_prompt_loop_mk (vals : List Nat) :
    ∀ (filled : List Cell) (rest : List Nat)
      (miso : List (List Nat)) (t : List Event) (q c : Nat) (d : spi_dev) (j : Nat),
    for_range spi_test_write_custom_byte_prompt filled.length vals.length
        (filled ++ List.replicate vals.length none)
        { keys := vals ++ rest, miso := miso, trace := t, quit_spi_test := q,
          spi_command_byte := c, selected_dev := d, selected_dev_id := j } =
      Run.done (filled ++ vals.map fun v => some (v % 256))
        { keys := rest, miso := miso,
          trace := t ++ custom_prompt_output filled.length vals, quit_spi_test := q,
          spi_command_byte := c, selected_dev := d, selected_dev_id := j } := by
  induction vals with
  | nil =>
      intro filled rest miso t q c d j
      simp [for_range, custom_prompt_output]
  | cons v vs ih =>
      intro filled rest miso t q c d j
      have hset : (filled ++ none :: List.replicate vs.length none).set filled.length
          (some (v % 256)) = (filled ++ [some (v % 256)]) ++ List.replicate vs.length none := by
        simp
      have hlen : filled.length + 1 = (filled ++ [some (v % 256)]).length := by simp
      simp only [List.length_cons, for_range, List.replicate_succ, bind_run,
        spi_test_write_custom_byte_prompt, UART_polled_tx_string, emit_run, andThen_done,
        ite_run, pure_run, get_bytes_from_user, List.cons_append, next_key_mk_cons, heap_store,
        hset]
      by_cases h0 : filled.length = 0
      · simp only [h0, if_true, andThen_done, emit_run, next_key_mk_cons]
        rw [h0] at hlen
        rw [hlen, ih]
        simp [custom_prompt_output, ← hlen]
      · simp only [h0, if_false, andThen_done, emit_run, next_key_mk_cons, pure_run]
        rw [hlen, ih]
        simp [custom_prompt_output, h0]

theorem custom_echo_loop_mk (writeData : List Cell) (count : Nat) :
    ∀ (lo : Nat) (keys : List Nat)
      (miso : List (List Nat)) (t : List Event) (q c : Nat) (d : spi_dev) (j : Nat),
    for_range (spi_test_write_custom_byte_echo writeData) lo count ()
        { keys := keys, miso := miso, trace := t, quit_spi_test := q,
          spi_command_byte := c, selected_dev := d, selected_dev_id := j } =
      Run.done ()
        { keys := keys, miso := miso,
          trace := t ++ custom_echo_output writeData lo count, quit_spi_test := q,
          spi_command_byte := c, selected_dev := d, selected_dev_id := j } := by
  induction count with
  | zero =>
      intro lo keys miso t q c d j
      simp [for_range, custom_echo_output]
  | succ k ih =>
      intro lo keys miso t q c d j
      simp only [for_range, bind_run, spi_test_write_custom_byte_echo, heap_load, emit_run,
        andThen_done, pure_run, UART_polled_tx_string, UART_hex]
      rw [ih]
      simp [custom_echo_output]

/-- C5 (counterexample): with the byte count 0 entered, the custom-length write flow and the
custom-length read flow do call `malloc` and do issue a bus transaction. -/
theorem custom_count_zero_is_not_rejected :
    ¬ (allocations (spi_test_write_custom_byte 1 (session_start [0, 0x20, 1] [])).world.trace = [] ∧
        bus_ops (spi_test_write_custom_byte 1 (session_start [0, 0x20, 1] [])).world.trace = []) ∧
    ¬ (allocations (spi_test_read_custom_byte 1 (session_start [0, 0x20, 1] [])).world.trace = [] ∧
        bus_ops (spi_test_read_custom_byte 1 (session_start [0, 0x20, 1] [])).world.trace = []) := by
  simp [session_start, spi_test_write_custom_byte, spi_test_write_custom_byte_body,
    spi_test_read_custom_byte, spi_test_read_custom_byte_body, spi_test_read_custom_byte_report,
    for_range, malloc, free, heap_load,
    UART_polled_tx_string, UART_hex, get_dec_from_user, get_bytes_from_user, get_yes_no_from_user,
    while_loop_succ, while_loop_exit, spi_test_read, spi_test_write, SPI_set_slave_select,
    SPI_transfer_block, SPI_clear_slave_select, Run.world, allocations, bus_ops, is_bus_op]

/-- C5 (amended): in the custom-length write flow and the custom-length read flow a byte
count of 0 is accepted like any other count: `malloc` is called with size 0 and, once the
operator confirms, the flow issues exactly one transaction whose length is that count (write:
transmit length 0, receive 1 byte; read: transmit the command byte, receive length 0), and
returns. -/
theorem custom_count_zero_is_accepted (cmd fuel : Nat) (rest : List Nat) (w : World)
    (hkeys : w.keys = 0 :: cmd :: 1 :: rest) :
    (∃ ext w1, spi_test_write_custom_byte (fuel + 1) w = Run.done () w1 ∧
        w1.trace = w.trace ++ ext ∧ w1.keys = rest ∧ allocations ext = [0] ∧
        bus_ops ext =
          [Event.SPI_set_slave_select w.selected_dev.spi w.selected_dev.spi_sel,
           Event.SPI_transfer_block w.selected_dev.spi [] 0 1,
           Event.SPI_clear_slave_select w.selected_dev.spi w.selected_dev.spi_sel]) ∧
    (∃ ext w1, spi_test_read_custom_byte (fuel + 1) w = Run.done () w1 ∧
        w1.trace = w.trace ++ ext ∧ w1.keys = rest ∧ allocations ext = [0] ∧
        bus_ops ext =
          [Event.SPI_set_slave_select w.selected_dev.spi w.selected_dev.spi_sel,
           Event.SPI_transfer_block w.selected_dev.spi [some (cmd % 256)] 1 0,
           Event.SPI_clear_slave_select w.selected_dev.spi w.selected_dev.spi_sel]) := by
  obtain ⟨keys, miso, t, q, cb, d, j⟩ := w
  simp only at hkeys
  subst hkeys
  simp [spi_test_write_custom_byte, spi_test_write_custom_byte_body,
    spi_test_read_custom_byte, spi_test_read_custom_byte_body, spi_test_read_custom_byte_report,
    for_range, malloc, free, heap_load,
    UART_polled_tx_string, UART_hex, get_dec_from_user, get_bytes_from_user, get_yes_no_from_user,
    while_loop_succ, while_loop_exit, spi_test_read, spi_test_write, SPI_set_slave_select,
    SPI_transfer_block, SPI_clear_slave_select, allocations, bus_ops, is_bus_op]

/-- The witness for C5 (amended): count 0, command byte 0x20, confirmed at once. -/
theorem custom_count_zero_is_accepted_witness :
    (∃ ext w1, spi_test_write_custom_byte (0 + 1) (session_start [0, 0x20, 1] []) =
          Run.done () w1 ∧
        w1.trace = (session_start [0, 0x20, 1] []).trace ++ ext ∧ w1.keys = [] ∧
        allocations ext = [0] ∧
        bus_ops ext =
          [Event.SPI_set_slave_select 0 1,
           Event.SPI_transfer_block 0 [] 0 1,
           Event.SPI_clear_slave_select 0 1]) ∧
    (∃ ext w1, spi_test_read_custom_byte (0 + 1) (session_start [0, 0x20, 1] []) =
          Run.done () w1 ∧
        w1.trace = (session_start [0, 0x20, 1] []).trace ++ ext ∧ w1.keys = [] ∧
        allocations ext = [0] ∧
        bus_ops ext =
          [Event.SPI_set_slave_select 0 1,
           Event.SPI_transfer_block 0 [some (0x20 % 256)] 1 0,
           Event.SPI_clear_slave_select 0 1]) :=
  custom_count_zero_is_accepted 0x20 0 [] (session_start [0, 0x20, 1] []) rfl

/-- C6 (failing input): the custom-length flows keep the count in 8 bits. For every count
`n` entered, the read flow allocates `n mod 256` bytes and its transaction receives
`n mod 256` bytes, and the write flow allocates `n mod 256` bytes, reads that many data
bytes and its transaction transmits `n mod 256` bytes. At `n = 999` that is 231, not 999. -/
theorem custom_count_is_cut_to_8_bits (n cmd : Nat) (vals : List Nat) (miso : List (List Nat))
    (hlen : vals.length = n % 256) :
    (allocations
          (spi_test_read_custom_byte 1 (session_start [n, cmd, 1] miso)).world.trace =
        [n % 256] ∧
      bus_ops (spi_test_read_custom_byte 1 (session_start [n, cmd, 1] miso)).world.trace =
        [Event.SPI_set_slave_select 0 1,
         Event.SPI_transfer_block 0 [some (cmd % 256)] 1 (n % 256),
         Event.SPI_clear_slave_select 0 1]) ∧
    (allocations
          (spi_test_write_custom_byte 1
            (session_start (n :: cmd :: vals ++ [1]) miso)).world.trace =
        [n % 256] ∧
      bus_ops
          (spi_test_write_custom_byte 1
            (session_start (n :: cmd :: vals ++ [1]) miso)).world.trace =
        [Event.SPI_set_slave_select 0 1,
         Event.SPI_transfer_block 0 (vals.map fun v => some (v % 256)) (n % 256) 1,
         Event.SPI_clear_slave_select 0 1]) := by
  constructor
  · simp [session_start, spi_test_read_custom_byte, spi_test_read_custom_byte_body,
      spi_test_read_custom_byte_report, for_range, malloc, free, heap_load,
      UART_polled_tx_string, UART_hex, get_dec_from_user, get_bytes_from_user,
      get_yes_no_from_user, while_loop_succ, while_loop_exit, spi_test_read,
      SPI_set_slave_select, SPI_transfer_block, SPI_clear_slave_select, Run.world,
      allocations, bus_ops, is_bus_op, external_spi_0, riscv_spi, SPI_SLAVE_1]
  · have hp := custom_prompt_loop_mk vals []
    simp only [List.length_nil, List.nil_append] at hp
    rw [hlen] at hp
    have htake : List.take (n % 256) (vals.map fun v => some (v % 256)) =
        vals.map fun v => some (v % 256) := by
      rw [← hlen]; simp
    simp [session_start, spi_test_write_custom_byte, spi_test_write_custom_byte_body,
      malloc, free, hp, custom_echo_loop_mk,
      UART_polled_tx_string, UART_hex, get_dec_from_user, get_bytes_from_user,
      get_yes_no_from_user, while_loop_succ, while_loop_exit, spi_test_write,
      SPI_set_slave_select, SPI_transfer_block, SPI_clear_slave_select, Run.world,
      bus_ops_append, bus_ops_cons, bus_ops_nil, allocations_append, allocations_cons,
      allocations_nil, bus_ops_custom_prompt_output, bus_ops_custom_echo_output,
      allocations_custom_prompt_output, allocations_custom_echo_output, is_bus_op, htake,
      external_spi_0, riscv_spi, SPI_SLAVE_1]

/-- The failing input of C6: the count 999, command byte 0x10 (and 231 data bytes 0x55 in the
write flow): 231 bytes are allocated and the transactions have length 231. -/
theorem custom_count_is_cut_to_8_bits_witness :
    (allocations
          (spi_test_read_custom_byte 1 (session_start [999, 0x10, 1] [])).world.trace =
        [231] ∧
      bus_ops (spi_test_read_custom_byte 1 (session_start [999, 0x10, 1] [])).world.trace =
        [Event.SPI_set_slave_select 0 1,
         Event.SPI_transfer_block 0 [some 0x10] 1 231,
         Event.SPI_clear_slave_select 0 1]) ∧
    (allocations
          (spi_test_write_custom_byte 1
            (session_start (999 :: 0x10 :: List.replicate 231 0x55 ++ [1]) [])).world.trace =
        [231] ∧
      bus_ops
          (spi_test_write_custom_byte 1
            (session_start (999 :: 0x10 :: List.replicate 231 0x55 ++ [1]) [])).world.trace =
        [Event.SPI_set_slave_select 0 1,
         Event.SPI_transfer_block 0 ((List.replicate 231 0x55).map fun v => some (v % 256))
           231 1,
         Event.SPI_clear_slave_select 0 1]) :=
  custom_count_is_cut_to_8_bits 999 0x10 (List.replicate 231 0x55) []
    (List.length_replicate 231 0x55)

/-! ## The payload of the write flows -/

/-- C7 (failing input): with the command byte 0x20 entered, the payload that the write-one,
write-four and write-N flows hand to `spi_test_write` holds the data bytes only; the command
byte is not transmitted and the send size counts the data bytes only. -/
theorem write_flows_drop_the_command_byte :
    bus_ops (spi_test_write_single_byte 1 (session_start [0x20, 0x01, 1] [])).world.trace =
      [Event.SPI_set_slave_select 0 1,
       Event.SPI_transfer_block 0 [some 0x01] 1 1,
       Event.SPI_clear_slave_select 0 1] ∧
    bus_ops
        (spi_test_write_quad_byte 1
          (session_start [0x20, 0x01, 0x02, 0x03, 0x04, 1] [])).world.trace =
      [Event.SPI_set_slave_select 0 1,
       Event.SPI_transfer_block 0 [some 0x01, some 0x02, some 0x03, some 0x04] 4 1,
       Event.SPI_clear_slave_select 0 1] ∧
    bus_ops
        (spi_test_write_custom_byte 1 (session_start [2, 0x20, 0x01, 0x02, 1] [])).world.trace =
      [Event.SPI_set_slave_select 0 1,
       Event.SPI_transfer_block 0 [some 0x01, some 0x02] 2 1,
       Event.SPI_clear_slave_select 0 1] := by
  simp [session_start, spi_test_write_custom_byte, spi_test_write_custom_byte_body,
    spi_test_write_custom_byte_prompt, spi_test_write_custom_byte_echo,
    spi_test_write_quad_byte, spi_test_write_quad_byte_body,
    spi_test_write_quad_byte_prompt, spi_test_write_quad_byte_echo,
    spi_test_write_single_byte, spi_test_write_single_byte_body,
    for_range, malloc, free, heap_load, heap_store,
    UART_polled_tx_string, UART_hex, get_dec_from_user, get_bytes_from_user, get_yes_no_from_user,
    while_loop_succ, while_loop_exit, spi_test_read, spi_test_write, SPI_set_slave_select,
    SPI_transfer_block, SPI_clear_slave_select, Run.world, allocations, bus_ops, is_bus_op,
    external_spi_0, riscv_spi, SPI_SLAVE_1]

/-! ## A whole session: select a device, read one byte -/

theorem change_selected_device_mk (i : Nat) (dv : spi_dev) (hd : device_catalog[i]? = some dv)
    (fuel : Nat) (rest : List Nat)
    (miso : List (List Nat)) (t : List Event) (q c : Nat) (d : spi_dev) (j : Nat) :
    spi_test_change_selected_device (fuel + 1)
        { keys := (48 + i) :: rest, miso := miso, trace := t, quit_spi_test := q,
          spi_command_byte := c, selected_dev := d, selected_dev_id := j } =
      Run.done ()
        { keys := rest, miso := miso,
          trace := t ++ (change_device_banner ++ selected_report i), quit_spi_test := q,
          spi_command_byte := c, selected_dev := dv,
          selected_dev_id := dv.spi_sel } := by
  have hi : i < 6 := by
    by_contra h
    have : device_catalog[i]? = none := by
      apply List.getElem?_eq_none
      simp only [device_catalog, List.length_cons, List.length_nil]
      omega
    rw [this] at hd
    cases hd
  have hdv : dv = device_catalog.getD i fram_dev := by
    interval_cases i <;> simp [device_catalog] at hd ⊢ <;> exact hd.symm
  subst hdv
  exact change_selected_device_known i hi fuel rest _ rfl

set_option maxHeartbeats 4000000 in
/-- C8: for every valid device identifier `i` and every command byte `c`, a session started
from `spi_test_handler` in which the operator enters '0' and `i` (select device `i`), '3'
(read menu), '2' (read one byte), `c` and a confirmation puts on the bus exactly
assert(line of `i`), transfer(transmit `[c]` of length 1, receive 1 byte), deassert(line of
`i`), in that order and nothing else; this holds when the operator stops there (the session
waits for a key) and when two 'q' follow (the session returns). -/
theorem session_read_one_byte (i c fuel : Nat) (quit : Bool) (hi : i < 6) (hc : c < 256)
    (w : World)
    (hkeys : w.keys =
      ['0'.toNat, '0'.toNat + i, '3'.toNat, '2'.toNat, c, 1] ++
        (if quit then ['q'.toNat, 'q'.toNat] else [])) :
    ∃ d ext w1, device_catalog[i]? = some d ∧
      spi_test_handler (fuel + 3) w = (if quit then Run.done () w1 else Run.blocked w1) ∧
      w1.trace = w.trace ++ ext ∧
      bus_ops ext =
        [Event.SPI_set_slave_select d.spi d.spi_sel,
         Event.SPI_transfer_block d.spi [some c] 1 1,
         Event.SPI_clear_slave_select d.spi d.spi_sel] ∧
      w1.keys = [] ∧ w1.selected_dev = d := by
  obtain ⟨keys, miso, t, q, cb, d, j⟩ := w
  simp only at hkeys
  subst hkeys
  have hc1 : c % 256 = c := Nat.mod_eq_of_lt hc
  obtain ⟨dv, hd⟩ : ∃ dv, device_catalog[i]? = some dv := by
    interval_cases i <;> exact ⟨_, rfl⟩
  refine ⟨dv, ?_⟩
  cases quit <;>
  simp [spi_test_handler, spi_test_handler_body, spi_test_send_read_command,
    spi_test_send_read_command_body, change_selected_device_mk i dv hd,
    spi_test_read_single_byte, spi_test_read_single_byte_body, spi_test_display_commands,
    spi_test_display_write_command_instructions, spi_test_init,
    UART_polled_tx_string, UART_hex, get_single_char_from_user, get_bytes_from_user,
    get_yes_no_from_user, while_loop_succ, while_loop_exit, spi_test_read,
    SPI_set_slave_select, SPI_transfer_block, SPI_clear_slave_select,
    bus_ops_append, bus_ops_cons, bus_ops_nil, bus_ops_selected_report,
    bus_ops_change_device_banner, is_bus_op, hc1, hd]

/-- The witness for C8: the ADC (identifier '3'), command byte 0x10, then quit. -/
theorem session_read_one_byte_witness :
    ∃ d ext w1, device_catalog[3]? = some d ∧
      spi_test_handler (0 + 3)
          (session_start
            ['0'.toNat, '3'.toNat, '3'.toNat, '2'.toNat, 0x10, 1, 'q'.toNat, 'q'.toNat] []) =
        (if true = true then Run.done () w1 else Run.blocked w1) ∧
      w1.trace =
        (session_start
          ['0'.toNat, '3'.toNat, '3'.toNat, '2'.toNat, 0x10, 1, 'q'.toNat, 'q'.toNat] []).trace
          ++ ext ∧
      bus_ops ext =
        [Event.SPI_set_slave_select d.spi d.spi_sel,
         Event.SPI_transfer_block d.spi [some 0x10] 1 1,
         Event.SPI_clear_slave_select d.spi d.spi_sel] ∧
      w1.keys = [] ∧ w1.selected_dev = d :=
  session_read_one_byte 3 0x10 0 true (by decide) (by decide)
    (session_start
      ['0'.toNat, '3'.toNat, '3'.toNat, '2'.toNat, 0x10, 1, 'q'.toNat, 'q'.toNat] []) rfl

/-! ## Declining the confirmation in the write-four-bytes flow -/

theorem write_quad_byte_body_mk (r : QuadEntry) (b0 b1 b2 b3 : Cell) (rest : List Nat)
    (miso : List (List Nat)) (t : List Event) (q c : Nat) (d : spi_dev) (j : Nat) :
    spi_test_write_quad_byte_body (0, [b0, b1, b2, b3])
        { keys := r.keys ++ rest, miso := miso, trace := t, quit_spi_test := q,
          spi_command_byte := c, selected_dev := d, selected_dev_id := j } =
      Run.done (if r.answer = 1 then 1 else 0, r.payload)
        { keys := rest, miso := miso, trace := t ++ quad_round_output r, quit_spi_test := q,
          spi_command_byte := r.command % 256, selected_dev := d, selected_dev_id := j } := by
  simp [spi_test_write_quad_byte_body, spi_test_write_quad_byte_prompt,
    spi_test_write_quad_byte_echo, for_range, UART_polled_tx_string, UART_hex,
    get_bytes_from_user, get_yes_no_from_user, QuadEntry.keys, QuadEntry.payload,
    quad_round_output]
  split <;> simp

theorem write_quad_byte_loop_mk (declined : List QuadEntry) (last : QuadEntry)
    (hno : ∀ r ∈ declined, r.answer ≠ 1) (hyes : last.answer = 1) (fuel : Nat) :
    ∀ (b0 b1 b2 b3 : Cell) (rest : List Nat)
      (miso : List (List Nat)) (t : List Event) (q c : Nat) (d : spi_dev) (j : Nat),
    while_loop (fun locals _ => decide (locals.1 = 0)) spi_test_write_quad_byte_body
        (fuel + declined.length + 1) (0, [b0, b1, b2, b3])
        { keys := (declined ++ [last]).flatMap QuadEntry.keys ++ rest, miso := miso, trace := t,
          quit_spi_test := q, spi_command_byte := c, selected_dev := d, selected_dev_id := j } =
      Run.done (1, last.payload)
        { keys := rest, miso := miso,
          trace := t ++ (declined ++ [last]).flatMap quad_round_output,
          quit_spi_test := q, spi_command_byte := last.command % 256, selected_dev := d,
          selected_dev_id := j } := by
  induction declined with
  | nil =>
      intro b0 b1 b2 b3 rest miso t q c d j
      simp only [List.nil_append, List.flatMap_cons, List.flatMap_nil, List.append_nil,
        List.length_nil, Nat.add_zero, while_loop_succ, decide_True, if_true]
      rw [write_quad_byte_body_mk]
      simp [hyes, while_loop_exit]
  | cons r rs ih =>
      intro b0 b1 b2 b3 rest miso t q c d j
      have hr : r.answer ≠ 1 := hno r (List.mem_cons_self _ _)
      have hrs : ∀ x ∈ rs, x.answer ≠ 1 := fun x hx => hno x (List.mem_cons_of_mem _ hx)
      have hfuel : fuel + (r :: rs).length + 1 = (fuel + rs.length + 1) + 1 := by
        simp only [List.length_cons]; omega
      rw [hfuel, while_loop_succ]
      simp only [List.cons_append, List.flatMap_cons, List.append_assoc, decide_True, if_true]
      rw [write_quad_byte_body_mk]
      simp only [hr, if_false, andThen_done]
      rw [QuadEntry.payload, ih hrs]
      simp

/-- C9: for every number of declined rounds, when the operator declines the confirmation in
each of the rounds `declined` and confirms in the round `last` of the write-four-bytes flow,
the flow returns having read the six values of every round (the command byte and the four
data bytes are prompted for again after each decline); its log is the banner, the output of
every round in turn, then one transaction, then the report of the response. So exactly
one bus transaction is issued, after the confirmed round and none in a declined round, and it
carries the four data bytes entered in the confirmed round. -/
theorem write_quad_byte_after_declines (declined : List QuadEntry) (last : QuadEntry)
    (fuel : Nat) (rest : List Nat) (w : World)
    (hno : ∀ r ∈ declined, r.answer ≠ 1) (hyes : last.answer = 1)
    (hkeys : w.keys = (declined ++ [last]).flatMap QuadEntry.keys ++ rest) :
    ∃ response,
      spi_test_write_quad_byte (fuel + declined.length + 1) w =
        Run.done ()
          { w with
            keys := rest
            miso := w.miso.tail
            spi_command_byte := last.command % 256
            trace := w.trace ++
              (Event.uart "You have entered the \"Send Quad Byte\" tool\n\r\n\r" ::
                (declined ++ [last]).flatMap quad_round_output ++
                [Event.SPI_set_slave_select w.selected_dev.spi w.selected_dev.spi_sel,
                 Event.SPI_transfer_block w.selected_dev.spi last.payload 4 1,
                 Event.SPI_clear_slave_select w.selected_dev.spi w.selected_dev.spi_sel] ++
                quad_report response) } ∧
      bus_ops ((declined ++ [last]).flatMap quad_round_output) = [] ∧
      bus_ops (quad_report response) = [] := by
  obtain ⟨keys, miso, t, q, cb, d, j⟩ := w
  simp only at hkeys
  subst hkeys
  refine ⟨(store_block ((miso.headD []).take 1) [some 0]).headD (some 0), ?_,
    bus_ops_quad_rounds _, rfl⟩
  simp only [spi_test_write_quad_byte, bind_run, UART_polled_tx_string, emit_run,
    andThen_done, List.replicate]
  rw [write_quad_byte_loop_mk declined last hno hyes fuel]
  simp [spi_test_write, SPI_set_slave_select, SPI_transfer_block, SPI_clear_slave_select,
    UART_hex, QuadEntry.payload, quad_report]

/-- The witness for C9: command 0x20 and data 01 02 03 04, declined once, entered again and
confirmed. -/
theorem write_quad_byte_after_declines_witness :
    ∃ response,
      spi_test_write_quad_byte (0 + [QuadEntry.mk 0x20 1 2 3 4 0].length + 1)
          (session_start [0x20, 1, 2, 3, 4, 0, 0x20, 1, 2, 3, 4, 1] []) =
        Run.done ()
          { (session_start [0x20, 1, 2, 3, 4, 0, 0x20, 1, 2, 3, 4, 1] []) with
            keys := []
            miso := []
            spi_command_byte := 0x20 % 256
            trace := [] ++
              (Event.uart "You have entered the \"Send Quad Byte\" tool\n\r\n\r" ::
                ([QuadEntry.mk 0x20 1 2 3 4 0] ++ [QuadEntry.mk 0x20 1 2 3 4 1]).flatMap
                  quad_round_output ++
                [Event.SPI_set_slave_select 0 1,
                 Event.SPI_transfer_block 0 [some 1, some 2, some 3, some 4] 4 1,
                 Event.SPI_clear_slave_select 0 1] ++
                quad_report response) } ∧
      bus_ops (([QuadEntry.mk 0x20 1 2 3 4 0] ++ [QuadEntry.mk 0x20 1 2 3 4 1]).flatMap
        quad_round_output) = [] ∧
      bus_ops (quad_report response) = [] :=
  write_quad_byte_after_declines [QuadEntry.mk 0x20 1 2 3 4 0] (QuadEntry.mk 0x20 1 2 3 4 1) 0 []
    (session_start [0x20, 1, 2, 3, 4, 0, 0x20, 1, 2, 3, 4, 1] [])
    (by simp) rfl rfl

/-! ## Chip-select pairing -/

theorem paired_append (a b : List Event) (ha : paired a = true) (hb : paired b = true) :
    paired (a ++ b) = true := by
  induction a using paired.induct with
  | case1 => simpa using hb
  | case2 s l s1 tx n m s2 l2 rest ih =>
      simp only [paired, Bool.and_eq_true] at ha
      simp only [List.cons_append, paired, Bool.and_eq_true]
      exact ⟨ha.1, ih ha.2⟩
  | case3 t h1 h2 =>
      unfold paired at ha
      split at ha
      · exact absurd rfl h1
      · exact absurd rfl (h2 _ _ _ _ _ _ _ _ _)
      · cases ha

theorem tidy_pure {α : Type} (a : α) : Tidy (pure a : M α) :=
  ⟨fun w => ⟨[], by simp [Run.world], rfl⟩⟩

theorem tidy_bind {α β : Type} {m : M α} {f : α → M β} (hm : Tidy m) (hf : ∀ a, Tidy (f a)) :
    Tidy (m >>= f) := by
  constructor
  intro w
  obtain ⟨e1, h1, p1⟩ := hm.out w
  rw [bind_run]
  cases hr : m w with
  | done a w1 =>
      rw [hr] at h1
      obtain ⟨e2, h2, p2⟩ := (hf a).out w1
      refine ⟨e1 ++ e2, ?_, ?_⟩
      · simp only [andThen_done, h2]
        simp only [Run.world] at h1
        rw [h1, List.append_assoc]
      · rw [bus_ops_append]
        exact paired_append _ _ p1 p2
  | blocked w1 =>
      rw [hr] at h1
      exact ⟨e1, h1, p1⟩
  | spinning w1 =>
      rw [hr] at h1
      exact ⟨e1, h1, p1⟩

theorem tidy_emit (e : Event) (h : is_bus_op e = false) : Tidy (emit e) :=
  ⟨fun w => ⟨[e], rfl, by simp [bus_ops, h, paired]⟩⟩

theorem tidy_emit_uart (s : String) : Tidy (emit (Event.uart s)) := tidy_emit _ rfl

theorem tidy_emit_hex (v : Cell) : Tidy (emit (Event.uart_hex v)) := tidy_emit _ rfl

theorem tidy_emit_temp (v : Nat) : Tidy (emit (Event.uart_temp v)) := tidy_emit _ rfl

theorem tidy_emit_malloc (v : Nat) : Tidy (emit (Event.malloc v)) := tidy_emit _ rfl

theorem tidy_emit_free : Tidy (emit Event.free) := tidy_emit _ rfl

theorem tidy_emit_store (v : Nat) : Tidy (emit (Event.store v)) := tidy_emit _ rfl

theorem tidy_emit_load (v : Nat) : Tidy (emit (Event.load v)) := tidy_emit _ rfl

theorem tidy_emit_init (v : Nat) : Tidy (emit (Event.SPI_init v)) := tidy_emit _ rfl

theorem tidy_emit_master (v : Nat) : Tidy (emit (Event.SPI_configure_master_mode v)) :=
  tidy_emit _ rfl

theorem tidy_ite {α : Type} (c : Prop) [Decidable c] {m1 m2 : M α} (h1 : Tidy m1)
    (h2 : Tidy m2) : Tidy (if c then m1 else m2) := by
  split
  · exact h1
  · exact h2

theorem tidy_getWorld : Tidy getWorld := ⟨fun w => ⟨[], by simp [Run.world], rfl⟩⟩

theorem tidy_next_key : Tidy next_key := by
  constructor
  intro w
  refine ⟨[], ?_, rfl⟩
  unfold next_key
  split <;> simp [Run.world]

theorem tidy_set_quit (v : Nat) : Tidy (set_quit_spi_test v) :=
  ⟨fun w => ⟨[], by simp [Run.world], rfl⟩⟩

theorem tidy_set_command (v : Nat) : Tidy (set_spi_command_byte v) :=
  ⟨fun w => ⟨[], by simp [Run.world], rfl⟩⟩

theorem tidy_set_dev (v : spi_dev) : Tidy (set_selected_dev v) :=
  ⟨fun w => ⟨[], by simp [Run.world], rfl⟩⟩

theorem tidy_set_dev_id (v : Nat) : Tidy (set_selected_dev_id v) :=
  ⟨fun w => ⟨[], by simp [Run.world], rfl⟩⟩

theorem tidy_read (device : spi_dev) (command : Nat) (data : List Cell) (data_size : Nat) :
    Tidy (spi_test_read device command data data_size) := by
  constructor
  intro w
  refine ⟨[Event.SPI_set_slave_select device.spi device.spi_sel,
             Event.SPI_transfer_block device.spi [some command] 1 data_size,
             Event.SPI_clear_slave_select device.spi device.spi_sel], ?_, ?_⟩
  · simp [spi_test_read, SPI_set_slave_select, SPI_transfer_block, SPI_clear_slave_select,
      Run.world]
  · simp [bus_ops, is_bus_op, paired]

theorem tidy_write (device : spi_dev) (data : List Cell) (data_size : Nat) (resp : Cell) :
    Tidy (spi_test_write device data data_size resp) := by
  constructor
  intro w
  refine ⟨[Event.SPI_set_slave_select device.spi device.spi_sel,
             Event.SPI_transfer_block device.spi (data.take data_size) data_size 1,
             Event.SPI_clear_slave_select device.spi device.spi_sel], ?_, ?_⟩
  · simp [spi_test_write, SPI_set_slave_select, SPI_transfer_block, SPI_clear_slave_select,
      Run.world]
  · simp [bus_ops, is_bus_op, paired]

theorem tidy_while {σ : Type} (cond : σ → World → Bool) (body : σ → M σ)
    (hbody : ∀ s, Tidy (body s)) (fuel : Nat) : ∀ s, Tidy (while_loop cond body fuel s) := by
  induction fuel with
  | zero =>
      intro s
      constructor
      intro w
      refine ⟨[], ?_, rfl⟩
      simp only [while_loop]
      split <;> simp [Run.world]
  | succ n ih =>
      intro s
      constructor
      intro w
      rw [while_loop_succ]
      split
      · exact (tidy_bind (hbody s) ih).out w
      · exact ⟨[], by simp [Run.world], rfl⟩

theorem tidy_for {σ : Type} (body : Nat → σ → M σ) (hbody : ∀ i s, Tidy (body i s))
    (count : Nat) : ∀ lo s, Tidy (for_range body lo count s) := by
  induction count with
  | zero =>
      intro lo s
      simp only [for_range]
      exact tidy_pure s
  | succ n ih =>
      intro lo s
      simp only [for_range]
      exact tidy_bind (hbody lo s) (fun s1 => ih (lo + 1) s1)

set_option maxHeartbeats 2000000 in
theorem tidy_handler (fuel : Nat) : Tidy (spi_test_handler fuel) := by
  repeat' with_reducible first
    | intro _
    | exact tidy_pure _
    | exact tidy_getWorld
    | exact tidy_next_key
    | exact tidy_set_quit _
    | exact tidy_set_command _
    | exact tidy_set_dev _
    | exact tidy_set_dev_id _
    | exact tidy_read _ _ _ _
    | exact tidy_write _ _ _ _
    | exact tidy_emit_uart _
    | exact tidy_emit_hex _
    | exact tidy_emit_temp _
    | exact tidy_emit_malloc _
    | exact tidy_emit_free
    | exact tidy_emit_store _
    | exact tidy_emit_load _
    | exact tidy_emit_init _
    | exact tidy_emit_master _
    | apply tidy_while
    | apply tidy_for
    | apply tidy_ite
    | apply tidy_bind
    | simp only [spi_test_handler, spi_test_handler_body, spi_test_init,
        spi_test_send_write_command, spi_test_send_write_command_body,
        spi_test_send_read_command, spi_test_send_read_command_body,
        spi_test_change_selected_device, spi_test_change_selected_device_body,
        spi_test_write_single_byte, spi_test_write_single_byte_body,
        spi_test_write_quad_byte, spi_test_write_quad_byte_body,
        spi_test_write_quad_byte_prompt, spi_test_write_quad_byte_echo,
        spi_test_write_custom_byte, spi_test_write_custom_byte_body,
        spi_test_write_custom_byte_prompt, spi_test_write_custom_byte_echo,
        spi_test_read_single_byte, spi_test_read_single_byte_body,
        spi_test_read_quad_byte, spi_test_read_quad_byte_body, spi_test_read_quad_byte_report,
        spi_test_read_custom_byte, spi_test_read_custom_byte_body,
        spi_test_read_custom_byte_report,
        spi_test_display_commands, spi_test_display_devices, spi_test_display_selected_device,
        spi_test_display_incorrect_command, spi_test_display_write_command_instructions,
        spi_test_display_read_command_instructions,
        get_single_char_from_user, get_bytes_from_user, get_dec_from_user,
        get_yes_no_from_user, UART_polled_tx_string, UART_hex, malloc, free, heap_store,
        heap_load]

set_option maxHeartbeats 2000000 in
theorem tidy_handler_body (fuel : Nat) : Tidy (spi_test_handler_body fuel ()) := by
  repeat' with_reducible first
    | intro _
    | exact tidy_pure _
    | exact tidy_getWorld
    | exact tidy_next_key
    | exact tidy_set_quit _
    | exact tidy_set_command _
    | exact tidy_set_dev _
    | exact tidy_set_dev_id _
    | exact tidy_read _ _ _ _
    | exact tidy_write _ _ _ _
    | exact tidy_emit_uart _
    | exact tidy_emit_hex _
    | exact tidy_emit_temp _
    | exact tidy_emit_malloc _
    | exact tidy_emit_free
    | exact tidy_emit_store _
    | exact tidy_emit_load _
    | exact tidy_emit_init _
    | exact tidy_emit_master _
    | apply tidy_while
    | apply tidy_for
    | apply tidy_ite
    | apply tidy_bind
    | simp only [spi_test_handler, spi_test_handler_body, spi_test_init,
        spi_test_send_write_command, spi_test_send_write_command_body,
        spi_test_send_read_command, spi_test_send_read_command_body,
        spi_test_change_selected_device, spi_test_change_selected_device_body,
        spi_test_write_single_byte, spi_test_write_single_byte_body,
        spi_test_write_quad_byte, spi_test_write_quad_byte_body,
        spi_test_write_quad_byte_prompt, spi_test_write_quad_byte_echo,
        spi_test_write_custom_byte, spi_test_write_custom_byte_body,
        spi_test_write_custom_byte_prompt, spi_test_write_custom_byte_echo,
        spi_test_read_single_byte, spi_test_read_single_byte_body,
        spi_test_read_quad_byte, spi_test_read_quad_byte_body, spi_test_read_quad_byte_report,
        spi_test_read_custom_byte, spi_test_read_custom_byte_body,
        spi_test_read_custom_byte_report,
        spi_test_display_commands, spi_test_display_devices, spi_test_display_selected_device,
        spi_test_display_incorrect_command, spi_test_display_write_command_instructions,
        spi_test_display_read_command_instructions,
        get_single_char_from_user, get_bytes_from_user, get_dec_from_user,
        get_yes_no_from_user, UART_polled_tx_string, UART_hex, malloc, free, heap_store,
        heap_load]

set_option maxHeartbeats 2000000 in
theorem tidy_send_write_command_body (fuel : Nat) :
    Tidy (spi_test_send_write_command_body fuel ()) := by
  repeat' with_reducible first
    | intro _
    | exact tidy_pure _
    | exact tidy_getWorld
    | exact tidy_next_key
    | exact tidy_set_quit _
    | exact tidy_set_command _
    | exact tidy_set_dev _
    | exact tidy_set_dev_id _
    | exact tidy_read _ _ _ _
    | exact tidy_write _ _ _ _
    | exact tidy_emit_uart _
    | exact tidy_emit_hex _
    | exact tidy_emit_temp _
    | exact tidy_emit_malloc _
    | exact tidy_emit_free
    | exact tidy_emit_store _
    | exact tidy_emit_load _
    | exact tidy_emit_init _
    | exact tidy_emit_master _
    | apply tidy_while
    | apply tidy_for
    | apply tidy_ite
    | apply tidy_bind
    | simp only [spi_test_handler, spi_test_handler_body, spi_test_init,
        spi_test_send_write_command, spi_test_send_write_command_body,
        spi_test_send_read_command, spi_test_send_read_command_body,
        spi_test_change_selected_device, spi_test_change_selected_device_body,
        spi_test_write_single_byte, spi_test_write_single_byte_body,
        spi_test_write_quad_byte, spi_test_write_quad_byte_body,
        spi_test_write_quad_byte_prompt, spi_test_write_quad_byte_echo,
        spi_test_write_custom_byte, spi_test_write_custom_byte_body,
        spi_test_write_custom_byte_prompt, spi_test_write_custom_byte_echo,
        spi_test_read_single_byte, spi_test_read_single_byte_body,
        spi_test_read_quad_byte, spi_test_read_quad_byte_body, spi_test_read_quad_byte_report,
        spi_test_read_custom_byte, spi_test_read_custom_byte_body,
        spi_test_read_custom_byte_report,
        spi_test_display_commands, spi_test_display_devices, spi_test_display_selected_device,
        spi_test_display_incorrect_command, spi_test_display_write_command_instructions,
        spi_test_display_read_command_instructions,
        get_single_char_from_user, get_bytes_from_user, get_dec_from_user,
        get_yes_no_from_user, UART_polled_tx_string, UART_hex, malloc, free, heap_store,
        heap_load]

set_option maxHeartbeats 2000000 in
theorem tidy_send_read_command_body (fuel : Nat) :
    Tidy (spi_test_send_read_command_body fuel ()) := by
  repeat' with_reducible first
    | intro _
    | exact tidy_pure _
    | exact tidy_getWorld
    | exact tidy_next_key
    | exact tidy_set_quit _
    | exact tidy_set_command _
    | exact tidy_set_dev _
    | exact tidy_set_dev_id _
    | exact tidy_read _ _ _ _
    | exact tidy_write _ _ _ _
    | exact tidy_emit_uart _
    | exact tidy_emit_hex _
    | exact tidy_emit_temp _
    | exact tidy_emit_malloc _
    | exact tidy_emit_free
    | exact tidy_emit_store _
    | exact tidy_emit_load _
    | exact tidy_emit_init _
    | exact tidy_emit_master _
    | apply tidy_while
    | apply tidy_for
    | apply tidy_ite
    | apply tidy_bind
    | simp only [spi_test_handler, spi_test_handler_body, spi_test_init,
        spi_test_send_write_command, spi_test_send_write_command_body,
        spi_test_send_read_command, spi_test_send_read_command_body,
        spi_test_change_selected_device, spi_test_change_selected_device_body,
        spi_test_write_single_byte, spi_test_write_single_byte_body,
        spi_test_write_quad_byte, spi_test_write_quad_byte_body,
        spi_test_write_quad_byte_prompt, spi_test_write_quad_byte_echo,
        spi_test_write_custom_byte, spi_test_write_custom_byte_body,
        spi_test_write_custom_byte_prompt, spi_test_write_custom_byte_echo,
        spi_test_read_single_byte, spi_test_read_single_byte_body,
        spi_test_read_quad_byte, spi_test_read_quad_byte_body, spi_test_read_quad_byte_report,
        spi_test_read_custom_byte, spi_test_read_custom_byte_body,
        spi_test_read_custom_byte_report,
        spi_test_display_commands, spi_test_display_devices, spi_test_display_selected_device,
        spi_test_display_incorrect_command, spi_test_display_write_command_instructions,
        spi_test_display_read_command_instructions,
        get_single_char_from_user, get_bytes_from_user, get_dec_from_user,
        get_yes_no_from_user, UART_polled_tx_string, UART_hex, malloc, free, heap_store,
        heap_load]

theorem asserted_fold_bus_ops (t : List Event) :
    ∀ held, t.foldl asserted_step held = (bus_ops t).foldl asserted_step held := by
  induction t with
  | nil => intro held; rfl
  | cons e es ih =>
      intro held
      rw [bus_ops_cons]
      cases e <;> simp [is_bus_op, asserted_step, ih]

theorem asserted_of_paired_start (ops : List Event) (hp : paired ops = true) :
    ∀ pre, pre <+: ops →
      (pre.foldl asserted_step []).length ≤ 1 ∧ (pre = ops → pre.foldl asserted_step [] = []) := by
  induction ops using paired.induct with
  | case1 =>
      intro pre hpre
      have : pre = [] := List.prefix_nil.mp hpre
      subst this
      simp
  | case2 s l s1 tx n m s2 l2 rest ih =>
      intro pre hpre
      simp only [paired, Bool.and_eq_true, beq_iff_eq] at hp
      obtain ⟨⟨⟨_, _⟩, hl⟩, hrest⟩ := hp
      subst hl
      match pre, hpre with
      | [], _ => simp
      | [e1], h =>
          obtain ⟨he1, _⟩ := List.cons_prefix_cons.mp h
          subst he1
          simp [asserted_step]
      | [e1, e2], h =>
          obtain ⟨he1, ha⟩ := List.cons_prefix_cons.mp h
          obtain ⟨he2, _⟩ := List.cons_prefix_cons.mp ha
          subst he1 he2
          simp [asserted_step]
      | e1 :: e2 :: e3 :: more, h =>
          obtain ⟨he1, ha⟩ := List.cons_prefix_cons.mp h
          obtain ⟨he2, hb⟩ := List.cons_prefix_cons.mp ha
          obtain ⟨he3, hc⟩ := List.cons_prefix_cons.mp hb
          subst he1 he2 he3
          obtain ⟨h1, h2⟩ := ih hrest more hc
          simp only [List.foldl_cons, asserted_step, List.nil_append, List.erase_cons_head]
          refine ⟨h1, fun heq => h2 ?_⟩
          simpa using heq
  | case3 t h1 h2 =>
      unfold paired at hp
      split at hp
      · exact absurd rfl h1
      · exact absurd rfl (h2 _ _ _ _ _ _ _ _ _)
      · cases hp

theorem keeps_of_tidy {α : Type} {m : M α} (h : Tidy m) : keeps_chip_select_paired m := by
  intro w
  obtain ⟨ext, htrace, hp⟩ := h.out w
  refine ⟨ext, htrace, hp, ?_, ?_⟩
  · unfold asserted
    rw [asserted_fold_bus_ops]
    exact (asserted_of_paired_start _ hp _ (List.prefix_refl _)).2 rfl
  · intro n
    unfold asserted
    rw [asserted_fold_bus_ops]
    exact (asserted_of_paired_start _ hp _
      (List.IsPrefix.filter _ (List.take_prefix n ext))).1

/-- C10: chip-select pairing is an invariant of the session. For every world (every
sequence of operator inputs still to come, whatever the transfers yield, a transfer that
yields nothing included) and every loop budget, what `spi_test_handler` appends to the log
has as its bus operations whole transactions only: each asserts one chip-select line once,
transfers, and deasserts that same line once; at no point of the log are two lines
asserted, and none is asserted where the run ends. The same holds for each call of
`spi_test_read` and `spi_test_write` and for each step of the three menus. -/
theorem chip_select_pairing :
    (∀ fuel, keeps_chip_select_paired (spi_test_handler fuel)) ∧
    (∀ device command data data_size,
      keeps_chip_select_paired (spi_test_read device command data data_size)) ∧
    (∀ device data data_size resp_data,
      keeps_chip_select_paired (spi_test_write device data data_size resp_data)) ∧
    (∀ fuel, keeps_chip_select_paired (spi_test_handler_body fuel ())) ∧
    (∀ fuel, keeps_chip_select_paired (spi_test_send_write_command_body fuel ())) ∧
    (∀ fuel, keeps_chip_select_paired (spi_test_send_read_command_body fuel ())) :=
  ⟨fun fuel => keeps_of_tidy (tidy_handler fuel),
   fun device command data data_size => keeps_of_tidy (tidy_read device command data data_size),
   fun device data data_size resp => keeps_of_tidy (tidy_write device data data_size resp),
   fun fuel => keeps_of_tidy (tidy_handler_body fuel),
   fun fuel => keeps_of_tidy (tidy_send_write_command_body fuel),
   fun fuel => keeps_of_tidy (tidy_send_read_command_body fuel)⟩

/-! ## The quit flag -/

theorem quiet_pure {α : Type} (a : α) : Quiet (pure a : M α) :=
  ⟨fun w h => ⟨by simpa [Run.world] using h, by simp [Run.world]⟩⟩

theorem quiet_bind {α β : Type} {m : M α} {f : α → M β} (hm : Quiet m)
    (hf : ∀ a, Quiet (f a)) : Quiet (m >>= f) := by
  constructor
  intro w hq
  obtain ⟨h1, s1⟩ := hm.out w hq
  rw [bind_run]
  cases hr : m w with
  | done a w1 =>
      rw [hr] at h1 s1
      simp only [Run.world] at h1 s1
      obtain ⟨h2, s2⟩ := (hf a).out w1 h1
      exact ⟨h2, s2.trans s1⟩
  | blocked w1 =>
      rw [hr] at h1 s1
      exact ⟨h1, s1⟩
  | spinning w1 =>
      rw [hr] at h1 s1
      exact ⟨h1, s1⟩

theorem quiet_ite {α : Type} (c : Prop) [Decidable c] {m1 m2 : M α} (h1 : Quiet m1)
    (h2 : Quiet m2) : Quiet (if c then m1 else m2) := by
  split
  · exact h1
  · exact h2

theorem quiet_emit (e : Event) : Quiet (emit e) :=
  ⟨fun w h => ⟨by simpa [Run.world] using h, by simp [Run.world]⟩⟩

theorem quiet_getWorld : Quiet getWorld :=
  ⟨fun w h => ⟨by simpa [Run.world] using h, by simp [Run.world]⟩⟩

theorem quiet_next_key : Quiet next_key := by
  constructor
  intro w h
  unfold next_key
  split
  · exact ⟨by simpa [Run.world] using h, by simp [Run.world]⟩
  · next k rest hk =>
      refine ⟨by simpa [Run.world] using h, ?_⟩
      simp only [Run.world, hk]
      exact List.suffix_cons k rest

theorem quiet_set_quit_zero : Quiet (set_quit_spi_test 0) :=
  ⟨fun w _ => ⟨by simp [Run.world], by simp [Run.world]⟩⟩

theorem quiet_set_command (v : Nat) : Quiet (set_spi_command_byte v) :=
  ⟨fun w h => ⟨by simpa [Run.world] using h, by simp [Run.world]⟩⟩

theorem quiet_set_dev (v : spi_dev) : Quiet (set_selected_dev v) :=
  ⟨fun w h => ⟨by simpa [Run.world] using h, by simp [Run.world]⟩⟩

theorem quiet_set_dev_id (v : Nat) : Quiet (set_selected_dev_id v) :=
  ⟨fun w h => ⟨by simpa [Run.world] using h, by simp [Run.world]⟩⟩

theorem quiet_transfer (spi : Nat) (tx : List Cell) (n : Nat) (rx : List Cell) (k : Nat) :
    Quiet (SPI_transfer_block spi tx n rx k) :=
  ⟨fun w h => ⟨by simpa [SPI_transfer_block, Run.world] using h,
    by simp [SPI_transfer_block, Run.world]⟩⟩

theorem quiet_while {σ : Type} (cond : σ → World → Bool) (body : σ → M σ)
    (hbody : ∀ s, Quiet (body s)) (fuel : Nat) : ∀ s, Quiet (while_loop cond body fuel s) := by
  induction fuel with
  | zero =>
      intro s
      constructor
      intro w h
      simp only [while_loop]
      split <;> exact ⟨by simpa [Run.world] using h, by simp [Run.world]⟩
  | succ n ih =>
      intro s
      constructor
      intro w h
      rw [while_loop_succ]
      split
      · exact (quiet_bind (hbody s) ih).out w h
      · exact ⟨by simpa [Run.world] using h, by simp [Run.world]⟩

theorem quiet_for {σ : Type} (body : Nat → σ → M σ) (hbody : ∀ i s, Quiet (body i s))
    (count : Nat) : ∀ lo s, Quiet (for_range body lo count s) := by
  induction count with
  | zero =>
      intro lo s
      simp only [for_range]
      exact quiet_pure s
  | succ n ih =>
      intro lo s
      simp only [for_range]
      exact quiet_bind (hbody lo s) (fun s1 => ih (lo + 1) s1)

theorem substep_of_quiet {α : Type} {m : M α} (h : Quiet m) : SubStep m :=
  ⟨fun w hq => ⟨(h.out w hq).2, Or.inl (h.out w hq).1⟩⟩

theorem substep_set_one : SubStep (set_quit_spi_test 1) :=
  ⟨fun w _ => ⟨by simp [Run.world], Or.inr ⟨by simp [Run.returned], by simp [Run.world]⟩⟩⟩

theorem substep_ite {α : Type} (c : Prop) [Decidable c] {m1 m2 : M α} (h1 : SubStep m1)
    (h2 : SubStep m2) : SubStep (if c then m1 else m2) := by
  split
  · exact h1
  · exact h2

theorem substep_bind {α β : Type} {m : M α} {f : α → M β} (hm : Quiet m)
    (hf : ∀ a, SubStep (f a)) : SubStep (m >>= f) := by
  constructor
  intro w hq
  obtain ⟨h1, s1⟩ := hm.out w hq
  rw [bind_run]
  cases hr : m w with
  | done a w1 =>
      rw [hr] at h1 s1
      simp only [Run.world] at h1 s1
      obtain ⟨s2, h2⟩ := (hf a).out w1 h1
      exact ⟨s2.trans s1, h2⟩
  | blocked w1 =>
      rw [hr] at h1 s1
      exact ⟨s1, Or.inl h1⟩
  | spinning w1 =>
      rw [hr] at h1 s1
      exact ⟨s1, Or.inl h1⟩

theorem substep_loop {σ : Type} (body : σ → M σ) (hbody : ∀ s, SubStep (body s))
    (fuel : Nat) :
    ∀ s, SubStep (while_loop (fun _ g => decide (g.quit_spi_test = 0)) body fuel s) := by
  induction fuel with
  | zero =>
      intro s
      constructor
      intro w h
      simp only [while_loop]
      split <;> exact ⟨by simp [Run.world], Or.inl (by simpa [Run.world] using h)⟩
  | succ n ih =>
      intro s
      constructor
      intro w h
      rw [while_loop_succ]
      simp only [h, decide_True, if_true]
      obtain ⟨s1, h1⟩ := (hbody s).out w h
      cases hr : body s w with
      | done a w1 =>
          rw [hr] at s1 h1
          simp only [Run.world, Run.returned, true_and] at s1 h1
          simp only [andThen_done]
          rcases h1 with h0 | h1
          · obtain ⟨s2, h2⟩ := (ih a).out w1 h0
            exact ⟨s2.trans s1, h2⟩
          · rw [while_loop_exit _ _ _ _ _ (by simp [h1])]
            exact ⟨s1, Or.inr ⟨rfl, h1⟩⟩
      | blocked w1 =>
          rw [hr] at s1 h1
          simp only [Run.world, Run.returned, false_and, or_false, Bool.false_eq_true] at s1 h1
          exact ⟨s1, Or.inl h1⟩
      | spinning w1 =>
          rw [hr] at s1 h1
          simp only [Run.world, Run.returned, false_and, or_false, Bool.false_eq_true] at s1 h1
          exact ⟨s1, Or.inl h1⟩

set_option maxHeartbeats 2000000 in
theorem substep_send_write_command_body (fuel : Nat) (s : Unit) :
    SubStep (spi_test_send_write_command_body fuel s) := by
  unfold spi_test_send_write_command_body
  repeat' with_reducible first
    | intro _
    | exact quiet_pure _
    | exact quiet_getWorld
    | exact quiet_next_key
    | exact quiet_set_quit_zero
    | exact quiet_set_command _
    | exact quiet_set_dev _
    | exact quiet_set_dev_id _
    | exact quiet_transfer _ _ _ _ _
    | exact quiet_emit _
    | apply quiet_while
    | apply quiet_for
    | apply quiet_ite
    | apply quiet_bind
    | exact substep_set_one
    | apply substep_ite
    | apply substep_bind
    | apply substep_of_quiet
    | simp only [spi_test_change_selected_device, spi_test_change_selected_device_body,
        spi_test_write_single_byte, spi_test_write_single_byte_body,
        spi_test_write_quad_byte, spi_test_write_quad_byte_body,
        spi_test_write_quad_byte_prompt, spi_test_write_quad_byte_echo,
        spi_test_write_custom_byte, spi_test_write_custom_byte_body,
        spi_test_write_custom_byte_prompt, spi_test_write_custom_byte_echo,
        spi_test_read_single_byte, spi_test_read_single_byte_body,
        spi_test_read_quad_byte, spi_test_read_quad_byte_body, spi_test_read_quad_byte_report,
        spi_test_read_custom_byte, spi_test_read_custom_byte_body,
        spi_test_read_custom_byte_report,
        spi_test_display_commands, spi_test_display_devices, spi_test_display_selected_device,
        spi_test_display_incorrect_command, spi_test_display_write_command_instructions,
        spi_test_display_read_command_instructions,
        spi_test_read, spi_test_write, SPI_set_slave_select, SPI_clear_slave_select,
        get_single_char_from_user, get_bytes_from_user, get_dec_from_user,
        get_yes_no_from_user, UART_polled_tx_string, UART_hex, malloc, free, heap_store,
        heap_load]

set_option maxHeartbeats 2000000 in
theorem substep_send_read_command_body (fuel : Nat) (s : Unit) :
    SubStep (spi_test_send_read_command_body fuel s) := by
  unfold spi_test_send_read_command_body
  repeat' with_reducible first
    | intro _
    | exact quiet_pure _
    | exact quiet_getWorld
    | exact quiet_next_key
    | exact quiet_set_quit_zero
    | exact quiet_set_command _
    | exact quiet_set_dev _
    | exact quiet_set_dev_id _
    | exact quiet_transfer _ _ _ _ _
    | exact quiet_emit _
    | apply quiet_while
    | apply quiet_for
    | apply quiet_ite
    | apply quiet_bind
    | exact substep_set_one
    | apply substep_ite
    | apply substep_bind
    | apply substep_of_quiet
    | simp only [spi_test_change_selected_device, spi_test_change_selected_device_body,
        spi_test_write_single_byte, spi_test_write_single_byte_body,
        spi_test_write_quad_byte, spi_test_write_quad_byte_body,
        spi_test_write_quad_byte_prompt, spi_test_write_quad_byte_echo,
        spi_test_write_custom_byte, spi_test_write_custom_byte_body,
        spi_test_write_custom_byte_prompt, spi_test_write_custom_byte_echo,
        spi_test_read_single_byte, spi_test_read_single_byte_body,
        spi_test_read_quad_byte, spi_test_read_quad_byte_body, spi_test_read_quad_byte_report,
        spi_test_read_custom_byte, spi_test_read_custom_byte_body,
        spi_test_read_custom_byte_report,
        spi_test_display_commands, spi_test_display_devices, spi_test_display_selected_device,
        spi_test_display_incorrect_command, spi_test_display_write_command_instructions,
        spi_test_display_read_command_instructions,
        spi_test_read, spi_test_write, SPI_set_slave_select, SPI_clear_slave_select,
        get_single_char_from_user, get_bytes_from_user, get_dec_from_user,
        get_yes_no_from_user, UART_polled_tx_string, UART_hex, malloc, free, heap_store,
        heap_load]

theorem quiet_after_loop {m : M Unit} (hm : SubStep m) :
    Quiet (do
      m
      set_quit_spi_test 0
      UART_polled_tx_string "\n\rWELCOME TO THE SPI TEST!\n\r") := by
  constructor
  intro w hq
  obtain ⟨s1, h1⟩ := hm.out w hq
  rw [bind_run]
  cases hr : m w with
  | done a w1 =>
      rw [hr] at s1
      simpa [Run.world, UART_polled_tx_string] using s1
  | blocked w1 =>
      rw [hr] at s1 h1
      simp only [Run.world, Run.returned, false_and, or_false, Bool.false_eq_true] at s1 h1
      exact ⟨h1, s1⟩
  | spinning w1 =>
      rw [hr] at s1 h1
      simp only [Run.world, Run.returned, false_and, or_false, Bool.false_eq_true] at s1 h1
      exact ⟨h1, s1⟩

theorem quiet_send_write_command (fuel : Nat) : Quiet (spi_test_send_write_command fuel) :=
  quiet_after_loop (substep_loop _ (substep_send_write_command_body fuel) fuel ())

theorem quiet_send_read_command (fuel : Nat) : Quiet (spi_test_send_read_command fuel) :=
  quiet_after_loop (substep_loop _ (substep_send_read_command_body fuel) fuel ())

set_option maxHeartbeats 2000000 in
theorem quiet_change_selected_device (fuel : Nat) :
    Quiet (spi_test_change_selected_device fuel) := by
  repeat' with_reducible first
    | intro _
    | exact quiet_pure _
    | exact quiet_getWorld
    | exact quiet_next_key
    | exact quiet_set_quit_zero
    | exact quiet_set_command _
    | exact quiet_set_dev _
    | exact quiet_set_dev_id _
    | exact quiet_transfer _ _ _ _ _
    | exact quiet_emit _
    | apply quiet_while
    | apply quiet_for
    | apply quiet_ite
    | apply quiet_bind
    | simp only [spi_test_change_selected_device, spi_test_change_selected_device_body,
        spi_test_write_single_byte, spi_test_write_single_byte_body,
        spi_test_write_quad_byte, spi_test_write_quad_byte_body,
        spi_test_write_quad_byte_prompt, spi_test_write_quad_byte_echo,
        spi_test_write_custom_byte, spi_test_write_custom_byte_body,
        spi_test_write_custom_byte_prompt, spi_test_write_custom_byte_echo,
        spi_test_read_single_byte, spi_test_read_single_byte_body,
        spi_test_read_quad_byte, spi_test_read_quad_byte_body, spi_test_read_quad_byte_report,
        spi_test_read_custom_byte, spi_test_read_custom_byte_body,
        spi_test_read_custom_byte_report,
        spi_test_display_commands, spi_test_display_devices, spi_test_display_selected_device,
        spi_test_display_incorrect_command, spi_test_display_write_command_instructions,
        spi_test_display_read_command_instructions,
        spi_test_read, spi_test_write, SPI_set_slave_select, SPI_clear_slave_select,
        get_single_char_from_user, get_bytes_from_user, get_dec_from_user,
        get_yes_no_from_user, UART_polled_tx_string, UART_hex, malloc, free, heap_store,
        heap_load]

theorem quiet_display_commands : Quiet spi_test_display_commands := by
  repeat' with_reducible first
    | intro _
    | exact quiet_pure _
    | exact quiet_getWorld
    | exact quiet_next_key
    | exact quiet_set_quit_zero
    | exact quiet_set_command _
    | exact quiet_set_dev _
    | exact quiet_set_dev_id _
    | exact quiet_transfer _ _ _ _ _
    | exact quiet_emit _
    | apply quiet_while
    | apply quiet_for
    | apply quiet_ite
    | apply quiet_bind
    | simp only [spi_test_change_selected_device, spi_test_change_selected_device_body,
        spi_test_write_single_byte, spi_test_write_single_byte_body,
        spi_test_write_quad_byte, spi_test_write_quad_byte_body,
        spi_test_write_quad_byte_prompt, spi_test_write_quad_byte_echo,
        spi_test_write_custom_byte, spi_test_write_custom_byte_body,
        spi_test_write_custom_byte_prompt, spi_test_write_custom_byte_echo,
        spi_test_read_single_byte, spi_test_read_single_byte_body,
        spi_test_read_quad_byte, spi_test_read_quad_byte_body, spi_test_read_quad_byte_report,
        spi_test_read_custom_byte, spi_test_read_custom_byte_body,
        spi_test_read_custom_byte_report,
        spi_test_display_commands, spi_test_display_devices, spi_test_display_selected_device,
        spi_test_display_incorrect_command, spi_test_display_write_command_instructions,
        spi_test_display_read_command_instructions,
        spi_test_read, spi_test_write, SPI_set_slave_select, SPI_clear_slave_select,
        get_single_char_from_user, get_bytes_from_user, get_dec_from_user,
        get_yes_no_from_user, UART_polled_tx_string, UART_hex, malloc, free, heap_store,
        heap_load]

theorem quiet_display_devices : Quiet spi_test_display_devices := by
  repeat' with_reducible first
    | intro _
    | exact quiet_pure _
    | exact quiet_getWorld
    | exact quiet_next_key
    | exact quiet_set_quit_zero
    | exact quiet_set_command _
    | exact quiet_set_dev _
    | exact quiet_set_dev_id _
    | exact quiet_transfer _ _ _ _ _
    | exact quiet_emit _
    | apply quiet_while
    | apply quiet_for
    | apply quiet_ite
    | apply quiet_bind
    | simp only [spi_test_change_selected_device, spi_test_change_selected_device_body,
        spi_test_write_single_byte, spi_test_write_single_byte_body,
        spi_test_write_quad_byte, spi_test_write_quad_byte_body,
        spi_test_write_quad_byte_prompt, spi_test_write_quad_byte_echo,
        spi_test_write_custom_byte, spi_test_write_custom_byte_body,
        spi_test_write_custom_byte_prompt, spi_test_write_custom_byte_echo,
        spi_test_read_single_byte, spi_test_read_single_byte_body,
        spi_test_read_quad_byte, spi_test_read_quad_byte_body, spi_test_read_quad_byte_report,
        spi_test_read_custom_byte, spi_test_read_custom_byte_body,
        spi_test_read_custom_byte_report,
        spi_test_display_commands, spi_test_display_devices, spi_test_display_selected_device,
        spi_test_display_incorrect_command, spi_test_display_write_command_instructions,
        spi_test_display_read_command_instructions,
        spi_test_read, spi_test_write, SPI_set_slave_select, SPI_clear_slave_select,
        get_single_char_from_user, get_bytes_from_user, get_dec_from_user,
        get_yes_no_from_user, UART_polled_tx_string, UART_hex, malloc, free, heap_store,
        heap_load]

theorem quiet_display_selected_device : Quiet spi_test_display_selected_device := by
  repeat' with_reducible first
    | intro _
    | exact quiet_pure _
    | exact quiet_getWorld
    | exact quiet_next_key
    | exact quiet_set_quit_zero
    | exact quiet_set_command _
    | exact quiet_set_dev _
    | exact quiet_set_dev_id _
    | exact quiet_transfer _ _ _ _ _
    | exact quiet_emit _
    | apply quiet_while
    | apply quiet_for
    | apply quiet_ite
    | apply quiet_bind
    | simp only [spi_test_change_selected_device, spi_test_change_selected_device_body,
        spi_test_write_single_byte, spi_test_write_single_byte_body,
        spi_test_write_quad_byte, spi_test_write_quad_byte_body,
        spi_test_write_quad_byte_prompt, spi_test_write_quad_byte_echo,
        spi_test_write_custom_byte, spi_test_write_custom_byte_body,
        spi_test_write_custom_byte_prompt, spi_test_write_custom_byte_echo,
        spi_test_read_single_byte, spi_test_read_single_byte_body,
        spi_test_read_quad_byte, spi_test_read_quad_byte_body, spi_test_read_quad_byte_report,
        spi_test_read_custom_byte, spi_test_read_custom_byte_body,
        spi_test_read_custom_byte_report,
        spi_test_display_commands, spi_test_display_devices, spi_test_display_selected_device,
        spi_test_display_incorrect_command, spi_test_display_write_command_instructions,
        spi_test_display_read_command_instructions,
        spi_test_read, spi_test_write, SPI_set_slave_select, SPI_clear_slave_select,
        get_single_char_from_user, get_bytes_from_user, get_dec_from_user,
        get_yes_no_from_user, UART_polled_tx_string, UART_hex, malloc, free, heap_store,
        heap_load]

theorem quiet_display_incorrect_command : Quiet spi_test_display_incorrect_command := by
  repeat' with_reducible first
    | intro _
    | exact quiet_pure _
    | exact quiet_getWorld
    | exact quiet_next_key
    | exact quiet_set_quit_zero
    | exact quiet_set_command _
    | exact quiet_set_dev _
    | exact quiet_set_dev_id _
    | exact quiet_transfer _ _ _ _ _
    | exact quiet_emit _
    | apply quiet_while
    | apply quiet_for
    | apply quiet_ite
    | apply quiet_bind
    | simp only [spi_test_change_selected_device, spi_test_change_selected_device_body,
        spi_test_write_single_byte, spi_test_write_single_byte_body,
        spi_test_write_quad_byte, spi_test_write_quad_byte_body,
        spi_test_write_quad_byte_prompt, spi_test_write_quad_byte_echo,
        spi_test_write_custom_byte, spi_test_write_custom_byte_body,
        spi_test_write_custom_byte_prompt, spi_test_write_custom_byte_echo,
        spi_test_read_single_byte, spi_test_read_single_byte_body,
        spi_test_read_quad_byte, spi_test_read_quad_byte_body, spi_test_read_quad_byte_report,
        spi_test_read_custom_byte, spi_test_read_custom_byte_body,
        spi_test_read_custom_byte_report,
        spi_test_display_commands, spi_test_display_devices, spi_test_display_selected_device,
        spi_test_display_incorrect_command, spi_test_display_write_command_instructions,
        spi_test_display_read_command_instructions,
        spi_test_read, spi_test_write, SPI_set_slave_select, SPI_clear_slave_select,
        get_single_char_from_user, get_bytes_from_user, get_dec_from_user,
        get_yes_no_from_user, UART_polled_tx_string, UART_hex, malloc, free, heap_store,
        heap_load]

theorem quiet_later {α : Type} {m : M α} (h : Quiet m) (w : World) (hq : w.quit_spi_test = 0)
    (ks : List Nat) (hs : w.keys <:+ ks) :
    (m w).world.quit_spi_test = 0 ∧ (m w).world.keys <:+ ks :=
  ⟨(h.out w hq).1, (h.out w hq).2.trans hs⟩

theorem handler_body_step (fuel : Nat) (w : World) (hq : w.quit_spi_test = 0) :
    ((spi_test_handler_body fuel () w).world.quit_spi_test = 0 ∧
        (spi_test_handler_body fuel () w).world.keys <:+ w.keys) ∨
      (∃ key, w.keys = key :: (spi_test_handler_body fuel () w).world.keys ∧
        key % 256 = 'q'.toNat ∧
        (spi_test_handler_body fuel () w).returned = true ∧
        (spi_test_handler_body fuel () w).world.quit_spi_test = 1) := by
  obtain ⟨keys, miso, t, q, cb, d, j⟩ := w
  simp only at hq
  subst hq
  cases keys with
  | nil =>
      left
      simp [spi_test_handler_body, UART_polled_tx_string, get_single_char_from_user, Run.world]
  | cons key rest =>
      by_cases hk : key % 256 = 'q'.toNat
      · right
        refine ⟨key, ?_⟩
        simp at hk
        simp [spi_test_handler_body, UART_polled_tx_string, get_single_char_from_user,
          Run.world, Run.returned, hk]
      · left
        simp only [spi_test_handler_body, bind_run, UART_polled_tx_string, emit_run,
          andThen_done, get_single_char_from_user, next_key_mk_cons, pure_run, ite_run]
        split_ifs
        · exact quiet_later quiet_display_commands _ rfl _ (List.suffix_cons key rest)
        · exact quiet_later quiet_display_devices _ rfl _ (List.suffix_cons key rest)
        · exact quiet_later (quiet_change_selected_device fuel) _ rfl _
            (List.suffix_cons key rest)
        · exact quiet_later quiet_display_selected_device _ rfl _ (List.suffix_cons key rest)
        · exact quiet_later (quiet_send_write_command fuel) _ rfl _
            (List.suffix_cons key rest)
        · exact quiet_later (quiet_send_read_command fuel) _ rfl _
            (List.suffix_cons key rest)
        · exact quiet_later quiet_display_incorrect_command _ rfl _
            (List.suffix_cons key rest)

theorem handler_loop_returns (fuel budget : Nat) :
    ∀ w w1, w.quit_spi_test = 0 →
      while_loop (fun _ g => decide (g.quit_spi_test = 0)) (spi_test_handler_body fuel) budget ()
          w = Run.done () w1 →
      w1.quit_spi_test = 1 ∧
        ∃ before key, w.keys = before ++ key :: w1.keys ∧ key % 256 = 'q'.toNat := by
  induction budget with
  | zero =>
      intro w w1 hq hrun
      simp [while_loop, hq] at hrun
  | succ n ih =>
      intro w w1 hq hrun
      rw [while_loop_succ] at hrun
      simp only [hq, decide_True, if_true] at hrun
      have hstep := handler_body_step fuel w hq
      cases hr : spi_test_handler_body fuel () w with
      | done a w2 =>
          rw [hr] at hrun hstep
          simp only [andThen_done] at hrun
          simp only [Run.world, Run.returned, true_and] at hstep
          rcases hstep with ⟨h0, hs⟩ | ⟨key, hkeys, hkey, h1⟩
          · obtain ⟨hq1, before, key, hk, hkey⟩ := ih w2 w1 h0 hrun
            obtain ⟨front, hfront⟩ := hs
            refine ⟨hq1, front ++ before, key, ?_, hkey⟩
            rw [← hfront, hk, List.append_assoc]
          · rw [while_loop_exit _ _ _ _ _ (by simp [h1])] at hrun
            cases hrun
            exact ⟨h1, [], key, by simpa using hkeys, hkey⟩
      | blocked w2 =>
          rw [hr] at hrun
          simp at hrun
      | spinning w2 =>
          rw [hr] at hrun
          simp at hrun

theorem handler_returns (fuel : Nat) (w w1 : World)
    (hrun : spi_test_handler fuel w = Run.done () w1) :
    w1.quit_spi_test = 1 ∧
      ∃ before key, w.keys = before ++ key :: w1.keys ∧ key % 256 = 'q'.toNat := by
  obtain ⟨keys, miso, t, q, cb, d, j⟩ := w
  simp only [spi_test_handler, bind_run, UART_polled_tx_string, emit_run, andThen_done,
    spi_test_display_commands, spi_test_init, set_quit_spi_test_run,
    set_spi_command_byte_run, set_selected_dev_run, set_selected_dev_id_run] at hrun
  obtain ⟨w0, hq0, hk0, hrun⟩ : ∃ w0 : World, w0.quit_spi_test = 0 ∧ w0.keys = keys ∧
      Run.andThen
        (while_loop (fun _ g => decide (g.quit_spi_test = 0)) (spi_test_handler_body fuel)
          fuel () w0)
        (fun _ => emit (Event.uart "\n\rLeaving SPI Test Program\n\r")) = Run.done () w1 := by
    refine ⟨_, ?_, ?_, hrun⟩ <;> rfl
  cases hl : while_loop (fun _ g => decide (g.quit_spi_test = 0)) (spi_test_handler_body fuel)
      fuel () w0 with
  | done a w2 =>
      rw [hl] at hrun
      simp only [andThen_done, emit_run, Run.done.injEq, true_and] at hrun
      obtain ⟨h1, before, key, hk, hkey⟩ := handler_loop_returns fuel fuel w0 w2 hq0 hl
      subst hrun
      refine ⟨h1, before, key, ?_, hkey⟩
      simpa [hk0] using hk
  | blocked w2 =>
      rw [hl] at hrun
      simp at hrun
  | spinning w2 =>
      rw [hl] at hrun
      simp at hrun

/-- C11: the quit flag. Started with the flag clear: (1, 2) 'q' entered in the write menu
or the read menu makes that menu return to the top menu with the flag cleared; (3, 4) for
every sequence of inputs and however it ends, a sub-menu leaves the flag clear, so the
top-level loop keeps running after it; (5) one pass of the top-level loop has the flag set
afterwards exactly when its key was 'q'; (6) 'q' entered at the top menu makes
`spi_test_handler` return; (7) for every sequence of inputs, when `spi_test_handler` returns
the flag is set and the last key it read was 'q'; (8, 9) a sub-menu is entered from a pass of
the top-level loop with the flag as that pass found it, that is clear. -/
theorem quit_flag_discipline (fuel : Nat) (w : World) (k kq : Nat) (rest : List Nat)
    (hq : w.quit_spi_test = 0) (hkq : kq % 256 = 'q'.toNat) :
    (spi_test_send_write_command (fuel + 1) { w with keys := kq :: rest } =
        Run.done ()
          { w with
            keys := rest
            quit_spi_test := 0
            trace := w.trace ++
              (sub_menu_head ++ [Event.uart "\n\rWELCOME TO THE SPI TEST!\n\r"]) }) ∧
    (spi_test_send_read_command (fuel + 1) { w with keys := kq :: rest } =
        Run.done ()
          { w with
            keys := rest
            quit_spi_test := 0
            trace := w.trace ++
              (sub_menu_head ++ [Event.uart "\n\rWELCOME TO THE SPI TEST!\n\r"]) }) ∧
    (spi_test_send_write_command fuel w).world.quit_spi_test = 0 ∧
    (spi_test_send_read_command fuel w).world.quit_spi_test = 0 ∧
    (spi_test_handler_body fuel () { w with keys := k :: rest }).world.quit_spi_test =
      (if k % 256 = 'q'.toNat then 1 else 0) ∧
    (∃ out,
      spi_test_handler (fuel + 1) { w with keys := kq :: rest } =
        Run.done ()
          { keys := rest
            miso := w.miso
            trace := w.trace ++ out
            quit_spi_test := 1
            spi_command_byte := 0
            selected_dev := external_spi_0
            selected_dev_id := external_spi_0.spi_sel }) ∧
    (∀ w1, spi_test_handler fuel w = Run.done () w1 →
      w1.quit_spi_test = 1 ∧
        ∃ before key, w.keys = before ++ key :: w1.keys ∧ key % 256 = 'q'.toNat) ∧
    (spi_test_handler_body fuel () { w with keys := '2'.toNat :: rest } =
      spi_test_send_write_command fuel
        { w with
          keys := rest
          trace := w.trace ++ [Event.uart "\n\r What would you like to do?\n\r"] }) ∧
    (spi_test_handler_body fuel () { w with keys := '3'.toNat :: rest } =
      spi_test_send_read_command fuel
        { w with
          keys := rest
          trace := w.trace ++ [Event.uart "\n\r What would you like to do?\n\r"] }) := by
  have hkq1 : kq % 256 = 113 := by simpa using hkq
  refine ⟨?_, ?_, (quiet_send_write_command fuel).out w hq |>.1,
    (quiet_send_read_command fuel).out w hq |>.1, ?_, ?_, handler_returns fuel w, ?_, ?_⟩
  · obtain ⟨keys, miso, t, q, cb, d, j⟩ := w
    simp only at hq
    subst hq
    simp [spi_test_send_write_command, spi_test_send_write_command_body,
      spi_test_display_write_command_instructions, UART_polled_tx_string,
      get_single_char_from_user, while_loop_succ, while_loop_exit, hkq1, sub_menu_head]
  · obtain ⟨keys, miso, t, q, cb, d, j⟩ := w
    simp only at hq
    subst hq
    simp [spi_test_send_read_command, spi_test_send_read_command_body,
      spi_test_display_write_command_instructions, UART_polled_tx_string,
      get_single_char_from_user, while_loop_succ, while_loop_exit, hkq1, sub_menu_head]
  · by_cases hk : k % 256 = 'q'.toNat
    · have hk1 : k % 256 = 113 := by simpa using hk
      simp [spi_test_handler_body, UART_polled_tx_string, get_single_char_from_user,
        Run.world, hk1]
    · rw [if_neg hk]
      rcases handler_body_step fuel { w with keys := k :: rest } hq with h | ⟨key, hkeys, hkey, _⟩
      · exact h.1
      · have : k = key := by
          simp only at hkeys
          exact (List.cons_eq_cons.mp hkeys).1
        exact absurd (this ▸ hkey) hk
  · obtain ⟨keys, miso, t, q, cb, d, j⟩ := w
    simp [spi_test_handler, spi_test_handler_body, spi_test_display_commands, spi_test_init,
      UART_polled_tx_string, get_single_char_from_user, while_loop_succ, while_loop_exit, hkq1]
  · simp [spi_test_handler_body, UART_polled_tx_string, get_single_char_from_user]
  · simp [spi_test_handler_body, UART_polled_tx_string, get_single_char_from_user]

/-- The witness for C11: the world after `spi_test_init`, the key '2' for the top-level
pass and 'q' for the rest. -/
theorem quit_flag_discipline_witness :
    (spi_test_send_write_command (1 + 1) { (session_start [] []) with keys := 'q'.toNat :: ['q'.toNat] } =
        Run.done ()
          { (session_start [] []) with
            keys := ['q'.toNat]
            quit_spi_test := 0
            trace := (session_start [] []).trace ++
              (sub_menu_head ++ [Event.uart "\n\rWELCOME TO THE SPI TEST!\n\r"]) }) ∧
    (spi_test_send_read_command (1 + 1) { (session_start [] []) with keys := 'q'.toNat :: ['q'.toNat] } =
        Run.done ()
          { (session_start [] []) with
            keys := ['q'.toNat]
            quit_spi_test := 0
            trace := (session_start [] []).trace ++
              (sub_menu_head ++ [Event.uart "\n\rWELCOME TO THE SPI TEST!\n\r"]) }) ∧
    (spi_test_send_write_command 1 (session_start [] [])).world.quit_spi_test = 0 ∧
    (spi_test_send_read_command 1 (session_start [] [])).world.quit_spi_test = 0 ∧
    (spi_test_handler_body 1 () { (session_start [] []) with keys := '2'.toNat :: ['q'.toNat] }).world.quit_spi_test =
      (if '2'.toNat % 256 = 'q'.toNat then 1 else 0) ∧
    (∃ out,
      spi_test_handler (1 + 1) { (session_start [] []) with keys := 'q'.toNat :: ['q'.toNat] } =
        Run.done ()
          { keys := ['q'.toNat]
            miso := (session_start [] []).miso
            trace := (session_start [] []).trace ++ out
            quit_spi_test := 1
            spi_command_byte := 0
            selected_dev := external_spi_0
            selected_dev_id := external_spi_0.spi_sel }) ∧
    (∀ w1, spi_test_handler 1 (session_start [] []) = Run.done () w1 →
      w1.quit_spi_test = 1 ∧
        ∃ before key, (session_start [] []).keys = before ++ key :: w1.keys ∧ key % 256 = 'q'.toNat) ∧
    (spi_test_handler_body 1 () { (session_start [] []) with keys := '2'.toNat :: ['q'.toNat] } =
      spi_test_send_write_command 1
        { (session_start [] []) with
          keys := ['q'.toNat]
          trace := (session_start [] []).trace ++ [Event.uart "\n\r What would you like to do?\n\r"] }) ∧
    (spi_test_handler_body 1 () { (session_start [] []) with keys := '3'.toNat :: ['q'.toNat] } =
      spi_test_send_read_command 1
        { (session_start [] []) with
          keys := ['q'.toNat]
          trace := (session_start [] []).trace ++ [Event.uart "\n\r What would you like to do?\n\r"] }) :=
  quit_flag_discipline 1 (session_start [] []) '2'.toNat 'q'.toNat ['q'.toNat] rfl (by decide)


/-! ## Invalid commands -/

/-- C12: for each of the three menus and every key outside the command set of that menu
(top menu: h d q 0 1 2 3; write and read menu: h d q 0 1 2 3 4), one pass of the menu loop
returns having printed "ERROR! Invalid Command!"; it issues no bus operation, changes no
global (selected device, its identifier, command byte, quit flag), and the loop of that
same menu goes on with the next key. -/
theorem invalid_command_is_reported (ktop ksub fuel budget : Nat) (rest : List Nat) (w : World)
    (hq : w.quit_spi_test = 0)
    (htop : ktop % 256 ∉ ['h'.toNat, 'd'.toNat, 'q'.toNat, '0'.toNat, '1'.toNat, '2'.toNat,
      '3'.toNat])
    (hsub : ksub % 256 ∉ ['h'.toNat, 'd'.toNat, 'q'.toNat, '0'.toNat, '1'.toNat, '2'.toNat,
      '3'.toNat, '4'.toNat]) :
    (spi_test_handler_body fuel () { w with keys := ktop :: rest } =
        Run.done ()
          { w with
            keys := rest
            trace := w.trace ++
              [Event.uart "\n\r What would you like to do?\n\r",
               Event.uart "ERROR! Invalid Command!\n\r"] }) ∧
    (spi_test_send_write_command_body fuel () { w with keys := ksub :: rest } =
        Run.done ()
          { w with
            keys := rest
            trace := w.trace ++
              (sub_menu_head ++ [Event.uart "ERROR! Invalid Command!\n\r"]) }) ∧
    (spi_test_send_read_command_body fuel () { w with keys := ksub :: rest } =
        Run.done ()
          { w with
            keys := rest
            trace := w.trace ++
              (sub_menu_head ++ [Event.uart "ERROR! Invalid Command!\n\r"]) }) ∧
    bus_ops
        [Event.uart "\n\r What would you like to do?\n\r",
         Event.uart "ERROR! Invalid Command!\n\r"] = [] ∧
    bus_ops (sub_menu_head ++ [Event.uart "ERROR! Invalid Command!\n\r"]) = [] ∧
    (while_loop (fun _ g => decide (g.quit_spi_test = 0)) (spi_test_handler_body fuel)
          (budget + 1) () { w with keys := ktop :: rest } =
        while_loop (fun _ g => decide (g.quit_spi_test = 0)) (spi_test_handler_body fuel)
          budget ()
          { w with
            keys := rest
            trace := w.trace ++
              [Event.uart "\n\r What would you like to do?\n\r",
               Event.uart "ERROR! Invalid Command!\n\r"] }) ∧
    (while_loop (fun _ g => decide (g.quit_spi_test = 0))
          (spi_test_send_write_command_body fuel) (budget + 1) ()
          { w with keys := ksub :: rest } =
        while_loop (fun _ g => decide (g.quit_spi_test = 0))
          (spi_test_send_write_command_body fuel) budget ()
          { w with
            keys := rest
            trace := w.trace ++
              (sub_menu_head ++ [Event.uart "ERROR! Invalid Command!\n\r"]) }) ∧
    (while_loop (fun _ g => decide (g.quit_spi_test = 0))
          (spi_test_send_read_command_body fuel) (budget + 1) ()
          { w with keys := ksub :: rest } =
        while_loop (fun _ g => decide (g.quit_spi_test = 0))
          (spi_test_send_read_command_body fuel) budget ()
          { w with
            keys := rest
            trace := w.trace ++
              (sub_menu_head ++ [Event.uart "ERROR! Invalid Command!\n\r"]) }) := by
  simp at htop hsub
  have htopb : spi_test_handler_body fuel () { w with keys := ktop :: rest } =
      Run.done ()
        { w with
          keys := rest
          trace := w.trace ++
            [Event.uart "\n\r What would you like to do?\n\r",
             Event.uart "ERROR! Invalid Command!\n\r"] } := by
    simp [spi_test_handler_body, spi_test_display_incorrect_command, UART_polled_tx_string,
      get_single_char_from_user, htop]
  have hwrite : spi_test_send_write_command_body fuel () { w with keys := ksub :: rest } =
      Run.done ()
        { w with
          keys := rest
          trace := w.trace ++
            (sub_menu_head ++ [Event.uart "ERROR! Invalid Command!\n\r"]) } := by
    simp [spi_test_send_write_command_body, spi_test_display_incorrect_command,
      spi_test_display_write_command_instructions, UART_polled_tx_string,
      get_single_char_from_user, hsub, sub_menu_head]
  have hread : spi_test_send_read_command_body fuel () { w with keys := ksub :: rest } =
      Run.done ()
        { w with
          keys := rest
          trace := w.trace ++
            (sub_menu_head ++ [Event.uart "ERROR! Invalid Command!\n\r"]) } := by
    simp [spi_test_send_read_command_body, spi_test_display_incorrect_command,
      spi_test_display_write_command_instructions, UART_polled_tx_string,
      get_single_char_from_user, hsub, sub_menu_head]
  refine ⟨htopb, hwrite, hread, rfl, rfl, ?_, ?_, ?_⟩
  · rw [while_loop_succ, htopb]
    simp [hq]
  · rw [while_loop_succ, hwrite]
    simp [hq]
  · rw [while_loop_succ, hread]
    simp [hq]

/-- The witness for C12: the key '4' at the top menu (a command of the sub-menus only) and
the key 'x' in the sub-menus. -/
theorem invalid_command_is_reported_witness :
    (spi_test_handler_body 1 () { (session_start [] []) with keys := '4'.toNat :: ['q'.toNat] } =
        Run.done ()
          { (session_start [] []) with
            keys := ['q'.toNat]
            trace := (session_start [] []).trace ++
              [Event.uart "\n\r What would you like to do?\n\r",
               Event.uart "ERROR! Invalid Command!\n\r"] }) ∧
    (spi_test_send_write_command_body 1 () { (session_start [] []) with keys := 'x'.toNat :: ['q'.toNat] } =
        Run.done ()
          { (session_start [] []) with
            keys := ['q'.toNat]
            trace := (session_start [] []).trace ++
              (sub_menu_head ++ [Event.uart "ERROR! Invalid Command!\n\r"]) }) ∧
    (spi_test_send_read_command_body 1 () { (session_start [] []) with keys := 'x'.toNat :: ['q'.toNat] } =
        Run.done ()
          { (session_start [] []) with
            keys := ['q'.toNat]
            trace := (session_start [] []).trace ++
              (sub_menu_head ++ [Event.uart "ERROR! Invalid Command!\n\r"]) }) ∧
    bus_ops
        [Event.uart "\n\r What would you like to do?\n\r",
         Event.uart "ERROR! Invalid Command!\n\r"] = [] ∧
    bus_ops (sub_menu_head ++ [Event.uart "ERROR! Invalid Command!\n\r"]) = [] ∧
    (while_loop (fun _ g => decide (g.quit_spi_test = 0)) (spi_test_handler_body 1)
          (1 + 1) () { (session_start [] []) with keys := '4'.toNat :: ['q'.toNat] } =
        while_loop (fun _ g => decide (g.quit_spi_test = 0)) (spi_test_handler_body 1)
          1 ()
          { (session_start [] []) with
            keys := ['q'.toNat]
            trace := (session_start [] []).trace ++
              [Event.uart "\n\r What would you like to do?\n\r",
               Event.uart "ERROR! Invalid Command!\n\r"] }) ∧
    (while_loop (fun _ g => decide (g.quit_spi_test = 0))
          (spi_test_send_write_command_body 1) (1 + 1) ()
          { (session_start [] []) with keys := 'x'.toNat :: ['q'.toNat] } =
        while_loop (fun _ g => decide (g.quit_spi_test = 0))
          (spi_test_send_write_command_body 1) 1 ()
          { (session_start [] []) with
            keys := ['q'.toNat]
            trace := (session_start [] []).trace ++
              (sub_menu_head ++ [Event.uart "ERROR! Invalid Command!\n\r"]) }) ∧
    (while_loop (fun _ g => decide (g.quit_spi_test = 0))
          (spi_test_send_read_command_body 1) (1 + 1) ()
          { (session_start [] []) with keys := 'x'.toNat :: ['q'.toNat] } =
        while_loop (fun _ g => decide (g.quit_spi_test = 0))
          (spi_test_send_read_command_body 1) 1 ()
          { (session_start [] []) with
            keys := ['q'.toNat]
            trace := (session_start [] []).trace ++
              (sub_menu_head ++ [Event.uart "ERROR! Invalid Command!\n\r"]) }) :=
  invalid_command_is_reported '4'.toNat 'x'.toNat 1 1 ['q'.toNat] (session_start [] []) rfl
    (by decide) (by decide)

/-! ## The report of the custom-length read flow -/

/-- C13 (failing inputs): whatever count `n` is entered, the custom-length read flow reads
the buffer elements 0, 1, 2, 3 while reporting and prints, after the echo of the command
byte, those four elements and nothing more. With count 1 (the bus answering AB) it reads
the indices 1, 2, 3 outside the 1-byte buffer and prints four values; with count 5 (the bus
answering 01 02 03 04 05) it prints the first four bytes only. -/
theorem read_custom_byte_reports_four :
    (∀ n cmd miso,
      loads (spi_test_read_custom_byte 1 (session_start [n, cmd, 1] miso)).world.trace =
          [0, 1, 2, 3] ∧
        printed_bytes
            (spi_test_read_custom_byte 1 (session_start [n, cmd, 1] miso)).world.trace =
          some (cmd % 256) ::
            (List.range 4).map fun i =>
              (store_block ((miso.headD []).take (n % 256))
                (List.replicate (n % 256) none)).getD i none) ∧
    (loads (spi_test_read_custom_byte 1 (session_start [1, 0x10, 1] [[0xAB]])).world.trace =
        [0, 1, 2, 3] ∧
      printed_bytes
          (spi_test_read_custom_byte 1 (session_start [1, 0x10, 1] [[0xAB]])).world.trace =
        [some 0x10, some 0xAB, none, none, none]) ∧
    (loads
          (spi_test_read_custom_byte 1
            (session_start [5, 0x10, 1] [[1, 2, 3, 4, 5]])).world.trace =
        [0, 1, 2, 3] ∧
      printed_bytes
          (spi_test_read_custom_byte 1
            (session_start [5, 0x10, 1] [[1, 2, 3, 4, 5]])).world.trace =
        [some 0x10, some 1, some 2, some 3, some 4]) := by
  refine ⟨fun n cmd miso => ?_, ?_, ?_⟩
  · simp [session_start, spi_test_read_custom_byte, spi_test_read_custom_byte_body,
      spi_test_read_custom_byte_report, for_range, malloc, free, heap_load,
      UART_polled_tx_string, UART_hex, get_dec_from_user, get_bytes_from_user,
      get_yes_no_from_user, while_loop_succ, while_loop_exit, spi_test_read,
      SPI_set_slave_select, SPI_transfer_block, SPI_clear_slave_select, Run.world,
      loads, printed_bytes, List.range, List.range.loop]
  · simp [session_start, spi_test_read_custom_byte, spi_test_read_custom_byte_body,
      spi_test_read_custom_byte_report, for_range, malloc, free, heap_load,
      UART_polled_tx_string, UART_hex, get_dec_from_user, get_bytes_from_user,
      get_yes_no_from_user, while_loop_succ, while_loop_exit, spi_test_read,
      SPI_set_slave_select, SPI_transfer_block, SPI_clear_slave_select, Run.world,
      loads, printed_bytes, store_block, List.replicate]
  · simp [session_start, spi_test_read_custom_byte, spi_test_read_custom_byte_body,
      spi_test_read_custom_byte_report, for_range, malloc, free, heap_load,
      UART_polled_tx_string, UART_hex, get_dec_from_user, get_bytes_from_user,
      get_yes_no_from_user, while_loop_succ, while_loop_exit, spi_test_read,
      SPI_set_slave_select, SPI_transfer_block, SPI_clear_slave_select, Run.world,
      loads, printed_bytes, store_block, List.replicate]

end SpiTest
